import Mathlib

set_option autoImplicit false

/-!
Verification of `crimm_dock/GridGenerator.py` (potential-energy grid
generation for FFT docking).

The Python module is shallowly embedded below.  Conventions:

* `numpy` float32 arrays of reals are modelled as `List ℚ`; 3-vectors as
  `Point3`; scalar-first quaternions as `Quat`.  The claims under study are
  about value routing, caching and index bookkeeping, not floating-point
  rounding, so exact rationals are adequate.
* Python objects become Lean structures; mutating methods become functions
  `State → State` (or `State → Except Err State` where the method can raise).
* The external native kernel `fft_docking` (pairwise distances, grid
  evaluation, vdW factor precomputation, rotated-grid batching) is an
  external collaborator; it is modelled as an explicit `Kernel` record of
  deterministic functions that the embedded methods receive as an argument,
  mirroring the call sites of the Python code.
* The four grid-shape classes live in `GridShapes.py`, which is a separate
  module of the repository not available here; its constructors are likewise
  passed in as a `GridShapeCtors` record, and the §3 invariant of the spec
  about the recorded in-box indices is taken as a hypothesis where a claim
  needs it.
-/

/-- A 3D point with rational coordinates (models a row of an `(N, 3)`
`numpy` coordinate array). -/
structure Point3 where
  x : ℚ
  y : ℚ
  z : ℚ
deriving DecidableEq, Repr

/-- Pointwise subtraction of 3-vectors, as used by `self.coords -= center`. -/
def Point3.sub (a b : Point3) : Point3 := ⟨a.x - b.x, a.y - b.y, a.z - b.z⟩

/-- Pointwise addition (used only to state helper lemmas). -/
def Point3.add (a b : Point3) : Point3 := ⟨a.x + b.x, a.y + b.y, a.z + b.z⟩

/-- A scalar-first quaternion `(w, x, y, z)` as used for the rotation sets. -/
structure Quat where
  w : ℚ
  x : ℚ
  y : ℚ
  z : ℚ
deriving DecidableEq, Repr

/-- Error taxonomy of the module (spec §7).  In the Python source these are
`ValueError` / `TypeError` / `KeyError` raises at the corresponding sites;
the spec names them as below and the embedding keeps them distinguishable
because claim C7 is about *which* failure occurs. -/
inductive Err where
  /-- mutually exclusive / missing required arguments
      (`'Either box_enter or the ref_ligand must be specified'`,
      invalid `grid_shape`, malformed rotation array) -/
  | configurationError
  /-- an atom lacks a topology assignment (`atom.topo_definition is None`) -/
  | missingTopologyError
  /-- an atom type absent from the nonbonded parameter table
      (`KeyError` on `self.nonbonded_dict[atom_type]`) -/
  | keyError
  /-- grid/coordinates accessed before the owning entity was loaded -/
  | stateError
  /-- externally supplied pose has the wrong number of coordinates -/
  | shapeMismatchError
  /-- degenerate geometry (e.g. empty coordinate array fed to `max`/`ptp`) -/
  | valueError
deriving DecidableEq, Repr

/-- Per-atom topology assignment (`atom.topo_definition`): the atom type key
and the per-atom charge.  Produced upstream by the topology generator. -/
structure TopoDef where
  atom_type : String
  charge : ℚ
deriving DecidableEq, Repr

/-- Nonbonded parameter-table row for one atom type (`rmin_half`,
`epsilon`). -/
structure NBParam where
  rmin_half : ℚ
  epsilon : ℚ
deriving DecidableEq, Repr

/-- An atom of a loaded structural entity: its coordinate and (optional)
topology assignment. -/
structure Atom where
  coord : Point3
  topo : Option TopoDef
deriving DecidableEq, Repr

/-- A structural entity (chain/model/residue) as far as this module reads it:
an ordered atom list (disordered-atom alternates already collapsed, as the
`atoms` property does) and the nonbonded parameter table that
`get_nonbonded_dict` resolves for it.  The table is kept as an association
list so that states stay decidably comparable; the chain-type dispatch of
`get_chain_nonbonded_dict` consults external `ParameterLoader` data and is
out of scope for the claims. -/
structure Entity where
  atoms : List Atom
  nbList : List (String × NBParam)
deriving DecidableEq, Repr

/-- Dictionary lookup `self.nonbonded_dict[atom_type]` (first match wins;
the embedding treats the dict as already-merged data). -/
def nbLookup : List (String × NBParam) → String → Option NBParam
  | [], _ => none
  | (k, v) :: rest, s => if k = s then some v else nbLookup rest s

/-- `get_coords(entity)`: the `(N, 3)` coordinate array of an entity. -/
def entityCoords (e : Entity) : List Point3 := e.atoms.map (·.coord)

/-- Maximum of a nonempty list (`numpy` `.max()`); `0` on the empty list,
which the Python code never reaches on the claim-relevant paths. -/
def listMax : List ℚ → ℚ
  | [] => 0
  | a :: rest => rest.foldl max a

/-- Minimum of a nonempty list (`numpy` `.min()`). -/
def listMin : List ℚ → ℚ
  | [] => 0
  | a :: rest => rest.foldl min a

/-- Arithmetic mean of a list (`numpy` `.mean(0)` per axis); `0` on the
empty list. -/
def listMean (l : List ℚ) : ℚ := l.sum / l.length

/-- Per-axis mean of a coordinate set: `coords.mean(0)`. -/
def centroidMean (cs : List Point3) : Point3 :=
  ⟨listMean (cs.map (·.x)), listMean (cs.map (·.y)), listMean (cs.map (·.z))⟩

/-- `GridCoordGenerator.coord_center`: the midpoint of the per-axis maximum
and minimum coordinates, `(coords.max(0) + coords.min(0)) / 2`.  Note this
is *not* the arithmetic mean of the coordinates. -/
def coordCenterOf (cs : List Point3) : Point3 :=
  ⟨(listMax (cs.map (·.x)) + listMin (cs.map (·.x))) / 2,
   (listMax (cs.map (·.y)) + listMin (cs.map (·.y))) / 2,
   (listMax (cs.map (·.z)) + listMin (cs.map (·.z))) / 2⟩

/-- `GridCoordGenerator.max_dims`: per-axis peak-to-peak extent
`coords.ptp(0)`. -/
def maxDimsOf (cs : List Point3) : Point3 :=
  ⟨listMax (cs.map (·.x)) - listMin (cs.map (·.x)),
   listMax (cs.map (·.y)) - listMin (cs.map (·.y)),
   listMax (cs.map (·.z)) - listMin (cs.map (·.z))⟩

/-- The four geometric domain policies, i.e. the keys of
`ReceptorGridGenerator.grid_shape_dict`.  The Python code carries them as
strings; an invalid string is rejected by `load_entity` before it is ever
stored, so an enumeration is a faithful model of the stored values. -/
inductive GridShapeName where
  | cubic
  | bounding_box
  | truncated_sphere
  | convex_hull
deriving DecidableEq, Repr

/-- A constructed grid-shape instance (`_Grid` of `GridShapes.py`) as far as
`GridGenerator.py` reads it: the ordered lattice points, the per-axis point
counts, the min corner, the spacing, and — for the non-box shapes — the
recorded indices of each lattice point inside the equivalent bounding-box
lattice (`grid_ids_in_box`). -/
structure CoordGrid where
  coords : List Point3
  points_per_dim : Nat × Nat × Nat
  min_coords : Point3
  spacing : ℚ
  grid_ids_in_box : List Nat
deriving DecidableEq, Repr

/-- Modelled from the spec: the four shape constructors of `GridShapes.py`
(`CubeGrid`, `BoundingBoxGrid`, `TruncatedSphereGrid`, `ConvexHullGrid`) are
code of this repository that is not under `src/`; §4.1 specifies them as
deterministic functions of `(max_dims, center, spacing, paddings,
optimize_for_fft)` (the hull additionally of the raw coordinates).  The
embedding abstracts them as a record of such functions, and takes the §3
in-box-index invariant as a hypothesis where a claim relies on it. -/
structure GridShapeCtors where
  cube : Point3 → Point3 → ℚ → ℚ → Bool → CoordGrid
  bbox : Point3 → Point3 → ℚ → ℚ → Bool → CoordGrid
  tsphere : Point3 → Point3 → ℚ → ℚ → Bool → CoordGrid
  hull : List Point3 → Point3 → Point3 → ℚ → ℚ → Bool → CoordGrid

/-- One orientation's flat channel grid as returned by the native kernel
(`numpy` arrays are flattened row-major; the per-axis counts travel
separately). -/
abbrev GridB := List ℚ

/-- The native compute kernel `fft_docking` (external collaborator, spec §6),
as the record of the four functions this layer calls.  Argument orders match
the Python call sites. -/
structure Kernel where
  pairwise_dist : List Point3 → List Point3 → List (List ℚ)
  generate_grids :
    List Point3 → List Point3 → List ℚ → List ℚ → List ℚ →
    ℚ → ℚ → ℚ → ℚ → ℚ → ℚ → Bool → (GridB × GridB × GridB)
  calc_vdw_energy_factors : List ℚ → List ℚ → (List ℚ × List ℚ)
  rotate_gen_lig_grids :
    ℚ → List ℚ → List ℚ → List ℚ → List Point3 → List Quat →
    (List (List Point3) × List GridB × List GridB × List GridB)

/-- `CC_ELEC_CHARMM` from `crimm.Data.constants` (the CHARMM Coulomb
constant); its exact value is irrelevant to every claim, only that the same
constant is forwarded. -/
def CC_ELEC : ℚ := 332.0716

/-- The stacked three-channel output stored in `self.potential_grids`:
`np.stack((elec, attr, rep))` of the three boxed grids, reshaped to the
per-axis point counts (the reshape is bookkeeping: the flat row-major data
is kept together with the dimension triple). -/
structure PotGrids where
  dims : Nat × Nat × Nat
  elec : GridB
  attr : GridB
  rep : GridB
deriving DecidableEq, Repr

/-- The mutable fields of `GridCoordGenerator` (`__init__`, lines 67-88).
`None` becomes `Option.none`.  The probe subclass additionally reuses the
`_elec_grid` attribute slot for a *batched* grid; that reuse is modelled by
separate fields on the probe state (see `ProbeState`). -/
structure GenState where
  spacing : ℚ
  paddings : ℚ
  entity : Option Entity
  coords : Option (List Point3)
  optimize_for_fft : Bool
  cubic_grid_c : Option CoordGrid
  bounding_box_grid_c : Option CoordGrid
  truncated_sphere_grid_c : Option CoordGrid
  enlarged_convex_hull_grid_c : Option CoordGrid
  coord_grid : Option CoordGrid
  elec_grid : Option GridB
  vdw_grid_attr : Option GridB
  vdw_grid_rep : Option GridB
  dists : Option (List (List ℚ))
  charges : Option (List ℚ)
  epsilons : Option (List ℚ)
  vdw_rs : Option (List ℚ)
  grid_shape : Option GridShapeName
  nonbonded_dict : List (String × NBParam)
deriving DecidableEq, Repr

/-- `GridCoordGenerator.__init__(grid_spacing, paddings, optimize_for_fft)`. -/
def GenState.init (grid_spacing paddings : ℚ) (optimize_for_fft : Bool) : GenState where
  spacing := grid_spacing
  paddings := paddings
  entity := none
  coords := none
  optimize_for_fft := optimize_for_fft
  cubic_grid_c := none
  bounding_box_grid_c := none
  truncated_sphere_grid_c := none
  enlarged_convex_hull_grid_c := none
  coord_grid := none
  elec_grid := none
  vdw_grid_attr := none
  vdw_grid_rep := none
  dists := none
  charges := none
  epsilons := none
  vdw_rs := none
  grid_shape := none
  nonbonded_dict := []

/-- `GridCoordGenerator.load_entity(entity)` (lines 90-99): record the
entity, resolve its nonbonded table, record single-precision coordinates,
and drop the four cached shape instances.  The entity-list variant of
`get_nonbonded_dict` concatenates per-entity tables; the embedding loads a
single (possibly pre-merged) entity, which is the only case the claims
exercise. -/
def GenState.load_entity (st : GenState) (e : Entity) : GenState :=
  { st with
    entity := some e
    nonbonded_dict := e.nbList
    coords := some (entityCoords e)
    cubic_grid_c := none
    bounding_box_grid_c := none
    truncated_sphere_grid_c := none
    enlarged_convex_hull_grid_c := none }

/-- `GridCoordGenerator.atoms` (lines 101-112): the atom list of the loaded
entity (empty when nothing is loaded; the Python property would raise, which
callers below surface as `stateError` before reading it). -/
def GenState.atomsOf (st : GenState) : List Atom :=
  match st.entity with
  | some e => e.atoms
  | none => []

/-- The loop body data of `_collect_params` (lines 202-216): walk the atoms
in order; an atom without topology raises, an atom type missing from the
nonbonded table raises `KeyError`; otherwise collect
`(charge, rmin_half, epsilon)` triples in atom order. -/
def collectParamsCore (nb : List (String × NBParam)) :
    List Atom → Except Err (List ℚ × List ℚ × List ℚ)
  | [] => .ok ([], [], [])
  | a :: rest =>
    match a.topo with
    | none => .error .missingTopologyError
    | some t =>
      match nbLookup nb t.atom_type with
      | none => .error .keyError
      | some p =>
        match collectParamsCore nb rest with
        | .error e => .error e
        | .ok (cs, vs, es) => .ok (t.charge :: cs, p.rmin_half :: vs, p.epsilon :: es)

/-- `GridCoordGenerator._collect_params(self)` (lines 202-221): on success
store the three parallel arrays (with `self._vdw_rs *= 2` converting
`rmin_half` to `rmin`); on a raise the object is untouched, because the
Python loop only mutates locals and assigns the fields after the loop.
The result pairs the raised error (if any) with the caller-visible state. -/
def GenState.collect_params (st : GenState) : Option Err × GenState :=
  match st.entity with
  | none => (some .stateError, st)
  | some e =>
    match collectParamsCore st.nonbonded_dict e.atoms with
    | .error err => (some err, st)
    | .ok (cs, vs, es) =>
      (none, { st with
                charges := some cs
                vdw_rs := some (vs.map (· * 2))
                epsilons := some es })

/-- The per-atom row that a successful collection stores for one atom:
its topology charge, `2 × rmin_half` from the table, and the table epsilon.
`none` when the atom has no topology or its type is not in the table. -/
def atomParamRowOf (nb : List (String × NBParam)) (a : Atom) :
    Option (ℚ × ℚ × ℚ) :=
  match a.topo with
  | none => none
  | some t =>
    match nbLookup nb t.atom_type with
    | none => none
    | some p => some (t.charge, 2 * p.rmin_half, p.epsilon)

theorem collectParamsCore_ok_of_resolvable (nb : List (String × NBParam)) :
    ∀ atoms : List Atom,
    (∀ a ∈ atoms, (atomParamRowOf nb a).isSome) →
    collectParamsCore nb atoms =
      .ok (atoms.filterMap (fun a => (atomParamRowOf nb a).map (·.1)),
           atoms.filterMap (fun a => (atomParamRowOf nb a).map (fun r => r.2.1 / 2)),
           atoms.filterMap (fun a => (atomParamRowOf nb a).map (·.2.2))) := by
  intro atoms h
  induction atoms with
  | nil => rfl
  | cons a rest ih =>
    have ha : (atomParamRowOf nb a).isSome := h a (List.mem_cons_self a rest)
    have hrest := ih (fun b hb => h b (List.mem_cons_of_mem a hb))
    cases hta : a.topo with
    | none => simp [atomParamRowOf, hta] at ha
    | some t =>
      cases hnb : nbLookup nb t.atom_type with
      | none => simp [atomParamRowOf, hta, hnb] at ha
      | some p =>
        have h2 : (2 : ℚ) * p.rmin_half / 2 = p.rmin_half := by ring
        simp [collectParamsCore, hta, hnb, hrest, atomParamRowOf,
              List.filterMap_cons, h2]

theorem collectParamsCore_error_of_missing_topo (nb : List (String × NBParam)) :
    ∀ atoms : List Atom, (∃ a ∈ atoms, a.topo = none) →
    ∃ e, collectParamsCore nb atoms = .error e := by
  intro atoms h
  induction atoms with
  | nil => obtain ⟨a, ha, _⟩ := h; exact absurd ha (List.not_mem_nil a)
  | cons a rest ih =>
    cases hta : a.topo with
    | none => exact ⟨.missingTopologyError, by simp [collectParamsCore, hta]⟩
    | some t =>
      have hbrest : ∃ b ∈ rest, b.topo = none := by
        obtain ⟨b, hb, hbt⟩ := h
        rcases List.mem_cons.mp hb with hba | hbr
        · subst hba; rw [hta] at hbt; cases hbt
        · exact ⟨b, hbr, hbt⟩
      cases hnb : nbLookup nb t.atom_type with
      | none => exact ⟨.keyError, by simp [collectParamsCore, hta, hnb]⟩
      | some p =>
        obtain ⟨e, he⟩ := ih hbrest
        exact ⟨e, by simp [collectParamsCore, hta, hnb, he]⟩

/-- `numpy` fancy-index assignment `base[ids] = vals`: sequentially write
`vals[j]` into position `ids[j]` (used by `convert_to_boxed_grid`). -/
def scatterAssign : List ℚ → List Nat → List ℚ → List ℚ
  | base, [], _ => base
  | base, _ :: _, [] => base
  | base, i :: is, v :: vs => scatterAssign (base.set i v) is vs

theorem scatterAssign_length : ∀ (base : List ℚ) (is : List Nat) (vs : List ℚ),
    (scatterAssign base is vs).length = base.length := by
  intro base is
  induction is generalizing base with
  | nil => intro vs; simp [scatterAssign]
  | cons i is ih =>
    intro vs
    cases vs with
    | nil => rfl
    | cons v vs => rw [scatterAssign, ih, List.length_set]

theorem scatterAssign_getD_not_mem :
    ∀ (base : List ℚ) (is : List Nat) (vs : List ℚ) (p : Nat), p ∉ is →
    (scatterAssign base is vs).getD p 0 = base.getD p 0 := by
  intro base is
  induction is generalizing base with
  | nil => intro vs p _; simp [scatterAssign]
  | cons i is ih =>
    intro vs p hp
    cases vs with
    | nil => rfl
    | cons v vs =>
      rw [scatterAssign, ih _ _ _ (fun h => hp (List.mem_cons_of_mem i h))]
      have hne : i ≠ p := fun h => hp (h ▸ List.mem_cons_self i is)
      simp [List.getD_eq_getElem?_getD, List.getElem?_set_ne hne]

theorem scatterAssign_getD_at :
    ∀ (base : List ℚ) (is : List Nat) (vs : List ℚ) (j : Nat),
    is.Nodup → (∀ i ∈ is, i < base.length) →
    j < is.length → j < vs.length →
    (scatterAssign base is vs).getD (is.getD j 0) 0 = vs.getD j 0 := by
  intro base is
  induction is generalizing base with
  | nil => intro vs j _ _ hj _; exact absurd hj (by simp)
  | cons i is ih =>
    intro vs j hnd hlt hj hvj
    cases vs with
    | nil => exact absurd hvj (by simp)
    | cons v vs =>
      cases j with
      | zero =>
        rw [scatterAssign, List.getD_cons_zero, List.getD_cons_zero]
        have hnotmem : i ∉ is := (List.nodup_cons.mp hnd).1
        rw [scatterAssign_getD_not_mem _ _ _ _ hnotmem]
        have hilen : i < base.length := hlt i (List.mem_cons_self i is)
        simp [List.getD_eq_getElem?_getD, List.getElem?_set_self hilen]
      | succ j =>
        rw [scatterAssign, List.getD_cons_succ, List.getD_cons_succ]
        exact ih _ _ j (List.nodup_cons.mp hnd).2
          (fun i' hi' => by rw [List.length_set]; exact hlt i' (List.mem_cons_of_mem i hi'))
          (Nat.lt_of_succ_lt_succ hj) (Nat.lt_of_succ_lt_succ hvj)

/-- Auxiliary for `setWhere`: traverse the flat array carrying the running
linear index. -/
def setWhereAux (pred : Nat → Bool) (e : ℚ) : Nat → List ℚ → List ℚ
  | _, [] => []
  | n, x :: xs => (if pred (n : Nat) then e else x) :: setWhereAux pred e (n + 1) xs

/-- Overwrite with the constant `e` every entry of a flat row-major array
whose linear index satisfies `pred` — one `vdwr[...] = edge_repl` face
assignment of `genernate_grids` (lines 416-421), expressed on the flat data
(the `reshape`/`flatten` pair around the face writes is index bookkeeping:
`reshape` and `flatten` are mutually inverse row-major re-indexings). -/
def setWhere (pred : Nat → Bool) (e : ℚ) (v : List ℚ) : List ℚ :=
  setWhereAux pred e 0 v

theorem setWhereAux_length (pred : Nat → Bool) (e : ℚ) :
    ∀ (v : List ℚ) (n : Nat), (setWhereAux pred e n v).length = v.length := by
  intro v
  induction v with
  | nil => intro n; rfl
  | cons x xs ih => intro n; rw [setWhereAux, List.length_cons, List.length_cons, ih]

theorem setWhere_length (pred : Nat → Bool) (e : ℚ) (v : List ℚ) :
    (setWhere pred e v).length = v.length := setWhereAux_length pred e v 0

theorem setWhereAux_getD (pred : Nat → Bool) (e : ℚ) :
    ∀ (v : List ℚ) (n p : Nat), p < v.length →
    (setWhereAux pred e n v).getD p 0 = if pred (n + p) then e else v.getD p 0 := by
  intro v
  induction v with
  | nil => intro n p hp; exact absurd hp (by simp)
  | cons x xs ih =>
    intro n p hp
    cases p with
    | zero => rw [setWhereAux]; simp
    | succ p =>
      rw [setWhereAux, List.getD_cons_succ, List.getD_cons_succ,
          ih (n + 1) p (by simpa using Nat.lt_of_succ_lt_succ hp)]
      have : n + 1 + p = n + (p + 1) := by omega
      rw [this]

theorem setWhere_getD (pred : Nat → Bool) (e : ℚ) (v : List ℚ) (p : Nat)
    (hp : p < v.length) :
    (setWhere pred e v).getD p 0 = if pred p then e else v.getD p 0 := by
  have h := setWhereAux_getD pred e v 0 p hp
  simpa using h

/-- Row-major linear index of the 3D index `(i, j, k)` in an array of shape
`(nx, ny, nz)` (C order, as `numpy` `reshape`/`flatten` use). -/
def rank3 (ny nz i j k : Nat) : Nat := (i * ny + j) * nz + k

theorem rank3_lt {nx ny nz i j k : Nat} (hi : i < nx) (hj : j < ny) (hk : k < nz) :
    rank3 ny nz i j k < nx * ny * nz := by
  have h1 : i * ny + j + 1 ≤ nx * ny := by
    calc i * ny + j + 1 ≤ i * ny + ny := by omega
    _ = (i + 1) * ny := by ring
    _ ≤ nx * ny := Nat.mul_le_mul_right ny hi
  calc (i * ny + j) * nz + k < (i * ny + j) * nz + nz := by omega
  _ = (i * ny + j + 1) * nz := by ring
  _ ≤ (nx * ny) * nz := Nat.mul_le_mul_right nz h1

theorem rank3_mod {ny nz i j k : Nat} (hk : k < nz) :
    rank3 ny nz i j k % nz = k := by
  rw [rank3, mul_comm (i * ny + j) nz, Nat.mul_add_mod, Nat.mod_eq_of_lt hk]

theorem rank3_div_mod {ny nz i j k : Nat} (hj : j < ny) (hk : k < nz) :
    rank3 ny nz i j k / nz % ny = j := by
  have hnz : 0 < nz := Nat.zero_lt_of_lt hk
  have hdiv : rank3 ny nz i j k / nz = i * ny + j := by
    rw [rank3, mul_comm (i * ny + j) nz, Nat.mul_add_div hnz,
        Nat.div_eq_of_lt hk, Nat.add_zero]
  rw [hdiv, mul_comm i ny, Nat.mul_add_mod, Nat.mod_eq_of_lt hj]

theorem rank3_div {ny nz i j k : Nat} (hj : j < ny) (hk : k < nz) :
    rank3 ny nz i j k / (ny * nz) = i := by
  have hpos : 0 < ny * nz := Nat.mul_pos (Nat.zero_lt_of_lt hj) (Nat.zero_lt_of_lt hk)
  have hsplit : rank3 ny nz i j k = ny * nz * i + (j * nz + k) := by
    rw [rank3]; ring
  have hr : j * nz + k < ny * nz := by
    calc j * nz + k < j * nz + nz := by omega
    _ = (j + 1) * nz := by ring
    _ ≤ ny * nz := Nat.mul_le_mul_right nz hj
  rw [hsplit, Nat.mul_add_div hpos, Nat.div_eq_of_lt hr, Nat.add_zero]

/-- The edge-repulsion guard of `PocketGridGenerator.genernate_grids`
(lines 413-422): `edge_repl = vdwr.max() * 100` is computed once from the
kernel's repulsive channel, then the six box faces of the reshaped array are
overwritten with it in sequence (`vdwr[0]`, `vdwr[-1]`, `vdwr[:,0]`,
`vdwr[:,-1]`, `vdwr[:,:,0]`, `vdwr[:,:,-1]`).  The `reshape` before and
`flatten` after the writes are mutually inverse row-major re-indexings, so
the guard is expressed here directly on the flat data via the linear-index
decomposition `i = p / (ny*nz)`, `j = p / nz % ny`, `k = p % nz`. -/
def applyEdgeGuard (nx ny nz : Nat) (v : GridB) : GridB :=
  setWhere (fun p => p % nz == nz - 1) (listMax v * 100)
    (setWhere (fun p => p % nz == 0) (listMax v * 100)
      (setWhere (fun p => p / nz % ny == ny - 1) (listMax v * 100)
        (setWhere (fun p => p / nz % ny == 0) (listMax v * 100)
          (setWhere (fun p => p / (ny * nz) == nx - 1) (listMax v * 100)
            (setWhere (fun p => p / (ny * nz) == 0) (listMax v * 100) v)))))

theorem applyEdgeGuard_length (nx ny nz : Nat) (v : GridB) :
    (applyEdgeGuard nx ny nz v).length = v.length := by
  unfold applyEdgeGuard
  simp [setWhere_length]

theorem applyEdgeGuard_getD {nx ny nz : Nat} (v : GridB) {i j k : Nat}
    (hi : i < nx) (hj : j < ny) (hk : k < nz) (hlen : v.length = nx * ny * nz) :
    (applyEdgeGuard nx ny nz v).getD (rank3 ny nz i j k) 0 =
      if i = 0 ∨ i = nx - 1 ∨ j = 0 ∨ j = ny - 1 ∨ k = 0 ∨ k = nz - 1
      then listMax v * 100
      else v.getD (rank3 ny nz i j k) 0 := by
  have hp : rank3 ny nz i j k < v.length := by rw [hlen]; exact rank3_lt hi hj hk
  unfold applyEdgeGuard
  rw [setWhere_getD _ _ _ _ (by simpa [setWhere_length] using hp)]
  rw [setWhere_getD _ _ _ _ (by simpa [setWhere_length] using hp)]
  rw [setWhere_getD _ _ _ _ (by simpa [setWhere_length] using hp)]
  rw [setWhere_getD _ _ _ _ (by simpa [setWhere_length] using hp)]
  rw [setWhere_getD _ _ _ _ (by simpa [setWhere_length] using hp)]
  rw [setWhere_getD _ _ _ _ hp]
  simp only [rank3_mod hk, rank3_div_mod hj hk, rank3_div hj hk]
  by_cases h1 : i = 0 <;> by_cases h2 : i = nx - 1 <;> by_cases h3 : j = 0 <;>
    by_cases h4 : j = ny - 1 <;> by_cases h5 : k = 0 <;> by_cases h6 : k = nz - 1 <;>
    simp [h1, h2, h3, h4, h5, h6]

/-- Memoized property `GridCoordGenerator.cubic_grid` (lines 134-142):
construct on first access from the loaded coordinates, cache, and return;
raises when nothing is loaded (`coord_center`/`max_dims` guard). -/
def GenState.cubicGridP (C : GridShapeCtors) (st : GenState) :
    Except Err (CoordGrid × GenState) :=
  match st.cubic_grid_c with
  | some g => .ok (g, st)
  | none =>
    match st.coords with
    | none => .error .stateError
    | some cs =>
      let g := C.cube (maxDimsOf cs) (coordCenterOf cs) st.spacing st.paddings
        st.optimize_for_fft
      .ok (g, { st with cubic_grid_c := some g })

/-- Memoized property `bounding_box_grid` (lines 144-152). -/
def GenState.boundingBoxGridP (C : GridShapeCtors) (st : GenState) :
    Except Err (CoordGrid × GenState) :=
  match st.bounding_box_grid_c with
  | some g => .ok (g, st)
  | none =>
    match st.coords with
    | none => .error .stateError
    | some cs =>
      let g := C.bbox (maxDimsOf cs) (coordCenterOf cs) st.spacing st.paddings
        st.optimize_for_fft
      .ok (g, { st with bounding_box_grid_c := some g })

/-- Memoized property `truncated_sphere_grid` (lines 154-162). -/
def GenState.truncatedSphereGridP (C : GridShapeCtors) (st : GenState) :
    Except Err (CoordGrid × GenState) :=
  match st.truncated_sphere_grid_c with
  | some g => .ok (g, st)
  | none =>
    match st.coords with
    | none => .error .stateError
    | some cs =>
      let g := C.tsphere (maxDimsOf cs) (coordCenterOf cs) st.spacing st.paddings
        st.optimize_for_fft
      .ok (g, { st with truncated_sphere_grid_c := some g })

/-- Memoized property `convex_hull_grid` (lines 164-172); the hull
constructor additionally receives the raw coordinates. -/
def GenState.convexHullGridP (C : GridShapeCtors) (st : GenState) :
    Except Err (CoordGrid × GenState) :=
  match st.enlarged_convex_hull_grid_c with
  | some g => .ok (g, st)
  | none =>
    match st.coords with
    | none => .error .stateError
    | some cs =>
      let g := C.hull cs (maxDimsOf cs) (coordCenterOf cs) st.spacing st.paddings
        st.optimize_for_fft
      .ok (g, { st with enlarged_convex_hull_grid_c := some g })

/-- `getattr(self, self.grid_shape_dict[grid_shape])`: dispatch to the four
memoized shape properties by name (lines 467-472, 509). -/
def GenState.shapeAccessor (C : GridShapeCtors) (st : GenState) :
    GridShapeName → Except Err (CoordGrid × GenState)
  | .cubic => st.cubicGridP C
  | .bounding_box => st.boundingBoxGridP C
  | .truncated_sphere => st.truncatedSphereGridP C
  | .convex_hull => st.convexHullGridP C

/-- The mutable fields of `ReceptorGridGenerator` on top of the base class
(`__init__`, lines 473-486): the six sign-normalized kernel configuration
values and the stacked `potential_grids` cache. -/
structure ReceptorState extends GenState where
  rad_dielec_const : ℚ
  elec_rep_max : ℚ
  elec_attr_max : ℚ
  vdw_rep_max : ℚ
  vdw_attr_max : ℚ
  use_cdie : Bool
  potential_grids : Option PotGrids
deriving DecidableEq, Repr

/-- `ReceptorGridGenerator.__init__(grid_spacing, paddings, optimize_for_fft,
rad_dielec_const, elec_rep_max, elec_attr_max, vdw_rep_max, vdw_attr_max,
use_constant_dielectric)` (lines 473-486).  Note the stored clamp values are
`abs(...)` for the repulsive maxima and the dielectric constant and
`-abs(...)` for the attractive maxima — not the caller's values verbatim. -/
def ReceptorState.init (grid_spacing paddings : ℚ) (optimize_for_fft : Bool)
    (rad_dielec_const elec_rep_max elec_attr_max vdw_rep_max vdw_attr_max : ℚ)
    (use_constant_dielectric : Bool) : ReceptorState where
  toGenState := GenState.init grid_spacing paddings optimize_for_fft
  rad_dielec_const := |rad_dielec_const|
  elec_rep_max := |elec_rep_max|
  elec_attr_max := -|elec_attr_max|
  vdw_rep_max := |vdw_rep_max|
  vdw_attr_max := -|vdw_attr_max|
  use_cdie := use_constant_dielectric
  potential_grids := none

/-- `ReceptorGridGenerator.load_entity(entity, grid_shape)` (lines 488-515):
validate the shape name (total over the enumeration here), run the base
load, record the shape, compute-and-cache the chosen coordinate grid,
collect parameters, then clear the pairwise distances and the three channel
grids.  The stacked `potential_grids` cache is *not* cleared by the source
(lines 511-515 list only `_dists`, `_elec_grid`, `_vdw_grid_attr`,
`_vdw_grid_rep`), so it carries over from the previous entity. -/
def ReceptorState.load_entity (C : GridShapeCtors) (st : ReceptorState)
    (entity : Entity) (grid_shape : GridShapeName) : Except Err ReceptorState :=
  let g0 := st.toGenState.load_entity entity
  let g1 := { g0 with grid_shape := some grid_shape }
  match g1.shapeAccessor C grid_shape with
  | .error e => .error e
  | .ok (cg, g2) =>
    let g3 := { g2 with coord_grid := some cg }
    match g3.collect_params with
    | (some e, _) => .error e
    | (none, g4) =>
      .ok { st with toGenState :=
        { g4 with dists := none, elec_grid := none,
                  vdw_grid_attr := none, vdw_grid_rep := none } }

/-- `ReceptorGridGenerator.convert_to_boxed_grid(grid)` (lines 587-598):
for the non-box shapes, scatter the shape-ordered values into a
zero-initialized array of the bounding-box lattice's size at the recorded
in-box indices; otherwise return the grid unchanged.  Accessing the
`bounding_box_grid` property may construct and cache it, hence the state in
the result. -/
def ReceptorState.convert_to_boxed_grid (C : GridShapeCtors)
    (st : ReceptorState) (grid : GridB) : Except Err (GridB × ReceptorState) :=
  match st.grid_shape with
  | some .convex_hull | some .truncated_sphere =>
    match st.coord_grid with
    | none => .error .stateError
    | some cg =>
      match st.toGenState.boundingBoxGridP C with
      | .error e => .error e
      | .ok (bb, g') =>
        let boxed := scatterAssign (List.replicate bb.coords.length 0)
          cg.grid_ids_in_box grid
        .ok (boxed, { st with toGenState := g' })
  | _ => .ok (grid, st)

/-- `ReceptorGridGenerator.genernate_grids()` (lines 571-585): one kernel
call for the three channels, storing the raw per-shape arrays, then the
stacked 3D conversion into `potential_grids` (the reshape to
`points_per_dim` keeps the flat row-major data with the dimension
triple). -/
def ReceptorState.genernate_grids (K : Kernel) (C : GridShapeCtors)
    (st : ReceptorState) : Except Err ReceptorState :=
  match st.coord_grid, st.coords, st.charges, st.epsilons, st.vdw_rs with
  | some cg, some cs, some ch, some eps, some vr =>
    let out := K.generate_grids cg.coords cs ch eps vr CC_ELEC
      st.rad_dielec_const st.elec_rep_max st.elec_attr_max
      st.vdw_rep_max st.vdw_attr_max st.use_cdie
    let eG := out.1
    let aG := out.2.1
    let rG := out.2.2
    let st1 := { st with toGenState :=
      { st.toGenState with elec_grid := some eG, vdw_grid_attr := some aG,
                           vdw_grid_rep := some rG } }
    match st1.convert_to_boxed_grid C eG with
    | .error e => .error e
    | .ok (be, st2) =>
      match st2.convert_to_boxed_grid C aG with
      | .error e => .error e
      | .ok (ba, st3) =>
        match st3.convert_to_boxed_grid C rG with
        | .error e => .error e
        | .ok (br, st4) =>
          .ok { st4 with potential_grids := some ⟨cg.points_per_dim, be, ba, br⟩ }
  | _, _, _, _, _ => .error .stateError

/-- `ReceptorGridGenerator.get_potential_grids()` (lines 564-569): return
the cached stack if present, else generate. -/
def ReceptorState.get_potential_grids (K : Kernel) (C : GridShapeCtors)
    (st : ReceptorState) : Except Err (PotGrids × ReceptorState) :=
  match st.potential_grids with
  | some P => .ok (P, st)
  | none =>
    match st.genernate_grids K C with
    | .error e => .error e
    | .ok st' =>
      match st'.potential_grids with
      | some P => .ok (P, st')
      | none => .error .stateError

/-- The mutable fields of `PocketGridGenerator` (`__init__`, lines 246-275).
The class does not inherit from `GridCoordGenerator`; it duplicates the
relevant fields and methods, and the embedding mirrors that separation. -/
structure PocketState where
  spacing : ℚ
  entity : Option Entity
  coords : Option (List Point3)
  coord_center : Option Point3
  max_dims : Option Point3
  optimize_for_fft : Bool
  ref_ligand : Option Entity
  paddings : ℚ
  rad_dielec_const : ℚ
  elec_rep_max : ℚ
  elec_attr_max : ℚ
  vdw_rep_max : ℚ
  vdw_attr_max : ℚ
  use_cdie : Bool
  coord_grid : Option CoordGrid
  potential_grids : Option PotGrids
  charges : Option (List ℚ)
  vdw_rs : Option (List ℚ)
  epsilons : Option (List ℚ)
  dists : Option (List (List ℚ))
  elec_grid : Option GridB
  vdw_grid_attr : Option GridB
  vdw_grid_rep : Option GridB
  nonbonded_dict : List (String × NBParam)
deriving DecidableEq, Repr

/-- `PocketGridGenerator.__init__(grid_spacing, optimize_for_fft,
rad_dielec_const, elec_rep_max, elec_attr_max, vdw_rep_max, vdw_attr_max,
use_constant_dielectric)` (lines 247-275): paddings fixed to `0`; the clamp
values stored sign-normalized (`abs` / `-abs`), not verbatim. -/
def PocketState.init (grid_spacing : ℚ) (optimize_for_fft : Bool)
    (rad_dielec_const elec_rep_max elec_attr_max vdw_rep_max vdw_attr_max : ℚ)
    (use_constant_dielectric : Bool) : PocketState where
  spacing := grid_spacing
  entity := none
  coords := none
  coord_center := none
  max_dims := none
  optimize_for_fft := optimize_for_fft
  ref_ligand := none
  paddings := 0
  rad_dielec_const := |rad_dielec_const|
  elec_rep_max := |elec_rep_max|
  elec_attr_max := -|elec_attr_max|
  vdw_rep_max := |vdw_rep_max|
  vdw_attr_max := -|vdw_attr_max|
  use_cdie := use_constant_dielectric
  coord_grid := none
  potential_grids := none
  charges := none
  vdw_rs := none
  epsilons := none
  dists := none
  elec_grid := none
  vdw_grid_attr := none
  vdw_grid_rep := none
  nonbonded_dict := []

/-- `box_dims` argument of `load_receptor`: a scalar (cube) or an explicit
per-axis triple (lines 306-308). -/
inductive BoxDims where
  | scalar : ℚ → BoxDims
  | triple : Point3 → BoxDims
deriving DecidableEq, Repr

/-- `if isinstance(box_dims, (int, float)): box_dims = (d, d, d)`. -/
def BoxDims.resolve : BoxDims → Point3
  | .scalar d => ⟨d, d, d⟩
  | .triple p => p

/-- `PocketGridGenerator._collect_params` (lines 321-340) — a verbatim
duplicate of the base-class method; the embedding shares
`collectParamsCore`. -/
def PocketState.collect_params (st : PocketState) : Option Err × PocketState :=
  match st.entity with
  | none => (some .stateError, st)
  | some e =>
    match collectParamsCore st.nonbonded_dict e.atoms with
    | .error err => (some err, st)
    | .ok (cs, vs, es) =>
      (none, { st with
                charges := some cs
                vdw_rs := some (vs.map (· * 2))
                epsilons := some es })

/-- The tail of `load_receptor` once the grid center has been chosen
(lines 303-319): record entity/table/dimensions, build the fixed-size
`BoundingBoxGrid`, record coordinates, collect parameters, then clear the
pairwise distances and channel grids (`potential_grids` is not cleared). -/
def PocketState.loadReceptorWithCenter (C : GridShapeCtors) (st : PocketState)
    (receptor : Entity) (box_dims : BoxDims) (c : Point3) :
    Except Err PocketState :=
  let md := box_dims.resolve
  let st1 := { st with
    coord_center := some c
    entity := some receptor
    nonbonded_dict := receptor.nbList
    max_dims := some md
    coord_grid := some (C.bbox md c st.spacing st.paddings st.optimize_for_fft)
    coords := some (entityCoords receptor) }
  match st1.collect_params with
  | (some e, _) => .error e
  | (none, st2) =>
    .ok { st2 with dists := none, elec_grid := none,
                   vdw_grid_attr := none, vdw_grid_rep := none }

/-- `PocketGridGenerator.load_receptor(receptor, box_dims, pocket_center,
ref_ligand)` (lines 294-319): `pocket_center` takes precedence; with only
`ref_ligand` the center is the mean of its coordinates; with neither the
call raises (`'Either box_enter or the ref_ligand must be specified'`). -/
def PocketState.load_receptor (C : GridShapeCtors) (st : PocketState)
    (receptor : Entity) (box_dims : BoxDims)
    (pocket_center : Option Point3) (ref_ligand : Option Entity) :
    Except Err PocketState :=
  match pocket_center with
  | some c => st.loadReceptorWithCenter C receptor box_dims c
  | none =>
    match ref_ligand with
    | some lig =>
      st.loadReceptorWithCenter C receptor box_dims (centroidMean (entityCoords lig))
    | none => .error .configurationError

/-- `PocketGridGenerator.genernate_grids()` (lines 404-428): one kernel call
for the three channels; the repulsive channel then gets the edge-repulsion
guard before everything is stacked into `potential_grids` (the pocket
`convert_to_3d_grid` is a plain reshape, i.e. the flat data with the
dimension triple). -/
def PocketState.genernate_grids (K : Kernel) (st : PocketState) :
    Except Err PocketState :=
  match st.coord_grid, st.coords, st.charges, st.epsilons, st.vdw_rs with
  | some cg, some cs, some ch, some eps, some vr =>
    let out := K.generate_grids cg.coords cs ch eps vr CC_ELEC
      st.rad_dielec_const st.elec_rep_max st.elec_attr_max
      st.vdw_rep_max st.vdw_attr_max st.use_cdie
    let eG := out.1
    let aG := out.2.1
    let rG := out.2.2
    let newRep := applyEdgeGuard cg.points_per_dim.1 cg.points_per_dim.2.1
      cg.points_per_dim.2.2 rG
    .ok { st with elec_grid := some eG, vdw_grid_attr := some aG,
                  vdw_grid_rep := some newRep,
                  potential_grids := some ⟨cg.points_per_dim, eG, aG, newRep⟩ }
  | _, _, _, _, _ => .error .stateError

/-- `PocketGridGenerator.get_potential_grids()` (lines 397-402). -/
def PocketState.get_potential_grids (K : Kernel) (st : PocketState) :
    Except Err (PotGrids × PocketState) :=
  match st.potential_grids with
  | some P => .ok (P, st)
  | none =>
    match st.genernate_grids K with
    | .error e => .error e
    | .ok st' =>
      match st'.potential_grids with
      | some P => .ok (P, st')
      | none => .error .stateError

/-- `ProbeGridGenerator._rot_search_levels[0]` (line 640): the single
identity quaternion, "no rotation".  Levels 1-3 are loaded from packaged
`.npy` data files (external read-only resources, spec §5); the claims under
study only involve level 0 or caller-supplied sets, so only the level-0
constant is embedded. -/
def rot_search_level_0 : List Quat := [⟨1, 0, 0, 0⟩]

/-- The mutable fields of `ProbeGridGenerator` on top of the base class
(`__init__`, lines 646-673).  The source stores the batched grids of
`generate_grids` in `self._elec_grid` (reusing the base attribute name) and
in the new attributes `self._vdw_attr_grid` / `self._vdw_rep_grid`; the
typed embedding gives the three batch slots their own fields
(`elec_grid_b`, `vdw_attr_grid_b`, `vdw_rep_grid_b`). -/
structure ProbeState extends GenState where
  quats : List Quat
  param_grids : Option (List (GridB × GridB × GridB))
  rotated_coords : Option (List (List Point3))
  original_center : Option Point3
  vdw_attr_factor : Option (List ℚ)
  vdw_rep_factor : Option (List ℚ)
  elec_grid_b : Option (List GridB)
  vdw_attr_grid_b : Option (List GridB)
  vdw_rep_grid_b : Option (List GridB)
deriving DecidableEq, Repr

/-- `ProbeGridGenerator.__init__(grid_spacing, rotation_search_level,
custom_rotations)` (lines 646-673): base init with `paddings=0`,
`optimize_for_fft=False`; `_grid_shape` starts as `"bounding_box"`; the
stored quaternion set is the preset of the chosen search level (level 0 =
`rot_search_level_0`) or the validated caller-supplied array, which the
caller of this embedding passes in resolved form. -/
def ProbeState.init (grid_spacing : ℚ) (quats : List Quat) : ProbeState where
  toGenState :=
    { GenState.init grid_spacing 0 false with grid_shape := some .bounding_box }
  quats := quats
  param_grids := none
  rotated_coords := none
  original_center := none
  vdw_attr_factor := none
  vdw_rep_factor := none
  elec_grid_b := none
  vdw_attr_grid_b := none
  vdw_rep_grid_b := none

/-- `ProbeGridGenerator.load_probe(probe)` (lines 675-696): base load,
re-center the coordinates by subtracting `coord_center` (the per-axis
max/min midpoint), force the `"cubic"` shape, collect parameters, clear the
cached grids, and precompute the vdW energy factors once via the kernel. -/
def ProbeState.load_probe (K : Kernel) (st : ProbeState) (probe : Entity) :
    Except Err ProbeState :=
  let g0 := st.toGenState.load_entity probe
  match g0.coords with
  | none => .error .stateError
  | some cs =>
    if cs.isEmpty then .error .valueError
    else
      let c := coordCenterOf cs
      let g1 := { g0 with coords := some (cs.map (fun (p : Point3) => p.sub c)),
                          grid_shape := some .cubic }
      match g1.collect_params with
      | (some e, _) => .error e
      | (none, g2) =>
        match g2.epsilons, g2.vdw_rs with
        | some eps, some vr =>
          let fac := K.calc_vdw_energy_factors eps vr
          .ok { st with
            toGenState := { g2 with elec_grid := none, vdw_grid_attr := none,
                                    vdw_grid_rep := none }
            original_center := some c
            param_grids := none
            rotated_coords := none
            elec_grid_b := none
            vdw_attr_grid_b := none
            vdw_rep_grid_b := none
            vdw_attr_factor := some fac.1
            vdw_rep_factor := some fac.2 }
        | _, _ => .error .stateError

/-- Positional alignment of the three channel batches into one
orientation-indexed batch, mirroring the `param_grids[:, 0] = ...` fills of
lines 732-737 (the `numpy` fills require the three batches to share the
batch length; `N_quats` is read off the electrostatic batch). -/
def zip3 {α β γ : Type} : List α → List β → List γ → List (α × β × γ)
  | a :: as, b :: bs, c :: cs => (a, b, c) :: zip3 as bs cs
  | _, _, _ => []

/-- `ProbeGridGenerator.generate_grids(quats)` (lines 698-737): raises when
no probe is loaded; resolves the local `quats` default; then calls the
kernel's batched `rotate_gen_lig_grids`.  NOTE: source line 729 passes
`self.quats` to the kernel — the local `quats` (and with it any
caller-supplied array) is never used. -/
def ProbeState.generate_grids (K : Kernel) (st : ProbeState)
    (quats : Option (List Quat)) : Except Err ProbeState :=
  match st.epsilons with
  | none => .error .stateError
  | some _ =>
    let quatsLocal := match quats with
      | none => st.quats
      | some qs => qs
    match st.coords, st.charges, st.vdw_attr_factor, st.vdw_rep_factor with
    | some cs, some ch, some af, some rf =>
      let _ := quatsLocal
      let out := K.rotate_gen_lig_grids st.spacing ch af rf cs st.quats
      .ok { st with rotated_coords := some out.1,
                    elec_grid_b := some out.2.1,
                    vdw_attr_grid_b := some out.2.2.1,
                    vdw_rep_grid_b := some out.2.2.2,
                    param_grids := some (zip3 out.2.1 out.2.2.1 out.2.2.2) }
    | _, _, _, _ => .error .stateError

/-- `ProbeGridGenerator.generate_grids_single_pose(pose_coords)` (lines
739-777): raises when no probe is loaded; raises on an atom-count mismatch;
otherwise one kernel call with the identity-only quaternion set
`_rot_search_levels[0]`.  The `np.squeeze(np.stack(...))` of the three
singleton batches is the triple of the three single grids; the embedding
returns the three batches, whose unique elements the squeeze extracts. -/
def ProbeState.generate_grids_single_pose (K : Kernel) (st : ProbeState)
    (pose_coords : List Point3) :
    Except Err (List GridB × List GridB × List GridB) :=
  match st.epsilons with
  | none => .error .stateError
  | some _ =>
    match st.coords, st.charges, st.vdw_attr_factor, st.vdw_rep_factor with
    | some cs, some ch, some af, some rf =>
      if pose_coords.length ≠ cs.length then .error .shapeMismatchError
      else
        let out := K.rotate_gen_lig_grids st.spacing ch af rf pose_coords
          rot_search_level_0
        .ok (out.2.1, out.2.2.1, out.2.2.2)
    | _, _, _, _ => .error .stateError

theorem foldl_max_map_sub (c : ℚ) :
    ∀ (l : List ℚ) (a : ℚ), (l.map (· - c)).foldl max (a - c) = l.foldl max a - c := by
  intro l
  induction l with
  | nil => intro a; rfl
  | cons x xs ih =>
    intro a
    simp only [List.map_cons, List.foldl_cons]
    rw [max_sub_sub_right a x c] at *
    exact ih (max a x)

theorem foldl_min_map_sub (c : ℚ) :
    ∀ (l : List ℚ) (a : ℚ), (l.map (· - c)).foldl min (a - c) = l.foldl min a - c := by
  intro l
  induction l with
  | nil => intro a; rfl
  | cons x xs ih =>
    intro a
    simp only [List.map_cons, List.foldl_cons]
    rw [min_sub_sub_right a x c] at *
    exact ih (min a x)

theorem listMax_map_sub (c : ℚ) (l : List ℚ) (h : l ≠ []) :
    listMax (l.map (· - c)) = listMax l - c := by
  cases l with
  | nil => exact absurd rfl h
  | cons x xs => simpa [listMax] using foldl_max_map_sub c xs x

theorem listMin_map_sub (c : ℚ) (l : List ℚ) (h : l ≠ []) :
    listMin (l.map (· - c)) = listMin l - c := by
  cases l with
  | nil => exact absurd rfl h
  | cons x xs => simpa [listMin] using foldl_min_map_sub c xs x

/-- Re-centering at `coord_center` sends `coord_center` of the result to the
origin (per axis: the max and min both shift by the former center). -/
theorem coordCenterOf_centered (cs : List Point3) (h : cs ≠ []) :
    coordCenterOf (cs.map (fun p => p.sub (coordCenterOf cs))) = ⟨0, 0, 0⟩ := by
  have hx : cs.map (·.x) ≠ [] := by simpa using h
  have hy : cs.map (·.y) ≠ [] := by simpa using h
  have hz : cs.map (·.z) ≠ [] := by simpa using h
  set c := coordCenterOf cs with hc
  have mx : (cs.map (fun p => p.sub c)).map (·.x) =
      (cs.map (·.x)).map (· - c.x) := by
    simp [Point3.sub, Function.comp]
  have my : (cs.map (fun p => p.sub c)).map (·.y) =
      (cs.map (·.y)).map (· - c.y) := by
    simp [Point3.sub, Function.comp]
  have mz : (cs.map (fun p => p.sub c)).map (·.z) =
      (cs.map (·.z)).map (· - c.z) := by
    simp [Point3.sub, Function.comp]
  have hcx : c.x = (listMax (cs.map (·.x)) + listMin (cs.map (·.x))) / 2 := rfl
  have hcy : c.y = (listMax (cs.map (·.y)) + listMin (cs.map (·.y))) / 2 := rfl
  have hcz : c.z = (listMax (cs.map (·.z)) + listMin (cs.map (·.z))) / 2 := rfl
  unfold coordCenterOf
  rw [mx, my, mz,
      listMax_map_sub _ _ hx, listMin_map_sub _ _ hx,
      listMax_map_sub _ _ hy, listMin_map_sub _ _ hy,
      listMax_map_sub _ _ hz, listMin_map_sub _ _ hz,
      hcx, hcy, hcz]
  simp only [Point3.mk.injEq]
  refine ⟨?_, ?_, ?_⟩ <;> ring

theorem collectParamsCore_never_configurationError
    (nb : List (String × NBParam)) :
    ∀ (atoms : List Atom) (e : Err),
    collectParamsCore nb atoms = .error e → e ≠ .configurationError := by
  intro atoms
  induction atoms with
  | nil => intro e he; simp [collectParamsCore] at he
  | cons a rest ih =>
    intro e he
    cases hta : a.topo with
    | none =>
      simp [collectParamsCore, hta] at he
      subst he; exact fun h => by cases h
    | some t =>
      cases hnb : nbLookup nb t.atom_type with
      | none =>
        simp [collectParamsCore, hta, hnb] at he
        subst he; exact fun h => by cases h
      | some p =>
        cases hrest : collectParamsCore nb rest with
        | error e' =>
          simp [collectParamsCore, hta, hnb, hrest] at he
          subst he; exact ih e' hrest
        | ok t' =>
          obtain ⟨cs, vs, es⟩ := t'
          simp [collectParamsCore, hta, hnb, hrest] at he

/-- The map/filterMap reconciliation between the raw collected `rmin_half`
values (stored after the `*= 2` conversion) and the per-atom row view. -/
theorem filterMap_half_double (nb : List (String × NBParam)) (atoms : List Atom) :
    (atoms.filterMap (fun a => (atomParamRowOf nb a).map (fun r => r.2.1 / 2))).map (· * 2) =
    atoms.filterMap (fun a => (atomParamRowOf nb a).map (·.2.1)) := by
  rw [List.map_filterMap]
  congr 1
  funext a
  cases h : atomParamRowOf nb a with
  | none => rfl
  | some r =>
    simp only [Option.map_some', Option.map_map, Function.comp]
    rw [div_mul_cancel₀ _ (two_ne_zero)]

/-- Claim C8: parameter collection is atomic.  If any atom of the loaded
entity lacks a topology assignment, `_collect_params` raises and the state —
including the previously stored charge/vdW-radius/epsilon arrays and every
cached grid — is exactly what it was before the call (the raising case
returns the unchanged state).  When every atom resolves, the three parallel
arrays are stored fully populated in atom iteration order, with the stored
vdW radius equal to `2 × rmin_half` from the table, and the cached grids are
untouched. -/
theorem C8_collect_params_atomic (st : GenState) :
    ((st.collect_params).1.isSome → (st.collect_params).2 = st) ∧
    ((∃ a ∈ st.atomsOf, a.topo = none) → (st.collect_params).1.isSome) ∧
    (st.entity.isSome →
      (∀ a ∈ st.atomsOf, (atomParamRowOf st.nonbonded_dict a).isSome) →
      (st.collect_params).1 = none ∧
      (st.collect_params).2.charges =
        some (st.atomsOf.filterMap
          (fun a => (atomParamRowOf st.nonbonded_dict a).map (·.1))) ∧
      (st.collect_params).2.vdw_rs =
        some (st.atomsOf.filterMap
          (fun a => (atomParamRowOf st.nonbonded_dict a).map (·.2.1))) ∧
      (st.collect_params).2.epsilons =
        some (st.atomsOf.filterMap
          (fun a => (atomParamRowOf st.nonbonded_dict a).map (·.2.2))) ∧
      (st.collect_params).2.elec_grid = st.elec_grid ∧
      (st.collect_params).2.vdw_grid_attr = st.vdw_grid_attr ∧
      (st.collect_params).2.vdw_grid_rep = st.vdw_grid_rep ∧
      (st.collect_params).2.dists = st.dists) := by
  refine ⟨?_, ?_, ?_⟩
  · intro hsome
    cases he : st.entity with
    | none => simp [GenState.collect_params, he]
    | some e =>
      cases hc : collectParamsCore st.nonbonded_dict e.atoms with
      | error err => simp [GenState.collect_params, he, hc]
      | ok t =>
        obtain ⟨cs, vs, es⟩ := t
        simp [GenState.collect_params, he, hc] at hsome
  · intro hbad
    cases he : st.entity with
    | none => simp [GenState.atomsOf, he] at hbad
    | some e =>
      obtain ⟨err, herr⟩ := collectParamsCore_error_of_missing_topo
        st.nonbonded_dict e.atoms (by simpa [GenState.atomsOf, he] using hbad)
      simp [GenState.collect_params, he, herr]
  · intro hent hres
    cases he : st.entity with
    | none => simp [he] at hent
    | some e =>
      have hok := collectParamsCore_ok_of_resolvable st.nonbonded_dict e.atoms
        (by simpa [GenState.atomsOf, he] using hres)
      simp [GenState.collect_params, he, hok, GenState.atomsOf, filterMap_half_double]

/-- Concrete material for the C8 witness: a well-parameterized entity and
one with a topology-less atom. -/
def nbTableW : List (String × NBParam) := [("A", ⟨3 / 2, -1 / 10⟩)]

def atomGoodA : Atom := ⟨⟨0, 0, 0⟩, some ⟨"A", 1⟩⟩

def atomBad : Atom := ⟨⟨1, 0, 0⟩, none⟩

def entGood : Entity := ⟨[atomGoodA], nbTableW⟩

def entBad : Entity := ⟨[atomGoodA, atomBad], nbTableW⟩

def stGood : GenState := (GenState.init 1 0 false).load_entity entGood

def stBad : GenState := (GenState.init 1 0 false).load_entity entBad

/-- Witness for C8: the entity with a topology-less atom makes collection
fail with the state unchanged; the fully assigned entity yields the three
populated arrays (vdW radius `2 × 3/2 = 3`). -/
theorem C8_collect_params_atomic_witness :
    (stBad.collect_params).1.isSome ∧
    (stBad.collect_params).2 = stBad ∧
    (stGood.collect_params).1 = none ∧
    (stGood.collect_params).2.charges = some [1] ∧
    (stGood.collect_params).2.vdw_rs = some [3] ∧
    (stGood.collect_params).2.epsilons = some [-1 / 10] := by
  have hthmB := C8_collect_params_atomic stBad
  have hmem : atomBad ∈ stBad.atomsOf := by
    show atomBad ∈ [atomGoodA, atomBad]
    exact List.mem_cons_of_mem _ (List.mem_cons_self _ _)
  have hbad : (stBad.collect_params).1.isSome := hthmB.2.1 ⟨atomBad, hmem, rfl⟩
  have hunch : (stBad.collect_params).2 = stBad := hthmB.1 hbad
  have hall : ∀ a ∈ stGood.atomsOf, (atomParamRowOf stGood.nonbonded_dict a).isSome := by
    show ∀ a ∈ [atomGoodA], (atomParamRowOf nbTableW a).isSome
    intro a ha
    rw [List.mem_singleton] at ha
    subst ha
    simp [atomParamRowOf, nbTableW, atomGoodA, nbLookup]
  have hgood := (C8_collect_params_atomic stGood).2.2 rfl hall
  refine ⟨hbad, hunch, hgood.1, ?_, ?_, ?_⟩
  · rw [hgood.2.1]
    norm_num [stGood, GenState.load_entity, GenState.init, GenState.atomsOf,
      entGood, atomGoodA, nbTableW, atomParamRowOf, nbLookup,
      List.filterMap_cons, List.filterMap_nil]
  · rw [hgood.2.2.1]
    norm_num [stGood, GenState.load_entity, GenState.init, GenState.atomsOf,
      entGood, atomGoodA, nbTableW, atomParamRowOf, nbLookup,
      List.filterMap_cons, List.filterMap_nil]
  · rw [hgood.2.2.2.1]
    norm_num [stGood, GenState.load_entity, GenState.init, GenState.atomsOf,
      entGood, atomGoodA, nbTableW, atomParamRowOf, nbLookup,
      List.filterMap_cons, List.filterMap_nil]

/-- Claim C5: for any grid whose length equals the active shape's point
count, with the active shape truncated-sphere or convex-hull,
`convert_to_boxed_grid` returns an array of the bounding-box lattice's point
count holding the grid's values exactly at the shape's recorded in-box
indices (in order) and zero everywhere else; for the cubic or bounding-box
shapes it returns the input unchanged.  The §3 invariant of the spec about
`grid_ids_in_box` — one bounding-box index per shape point, strictly
increasing in shape order — enters as the three index hypotheses
(grid-shape data is spec-modelled, `GridShapes.py` not being under
`src/`). -/
theorem C5_convert_to_boxed_grid (C : GridShapeCtors) (st : ReceptorState)
    (cg bb : CoordGrid) (grid : GridB)
    (hcg : st.coord_grid = some cg)
    (hbb : st.bounding_box_grid_c = some bb)
    (hlen : grid.length = cg.coords.length)
    (hids_len : cg.grid_ids_in_box.length = cg.coords.length)
    (hids_inc : cg.grid_ids_in_box.Pairwise (· < ·))
    (hids_lt : ∀ i ∈ cg.grid_ids_in_box, i < bb.coords.length) :
    ((st.grid_shape = some .truncated_sphere ∨ st.grid_shape = some .convex_hull) →
      ∃ out, st.convert_to_boxed_grid C grid = .ok (out, st) ∧
        out.length = bb.coords.length ∧
        (∀ j, j < cg.grid_ids_in_box.length →
          out.getD (cg.grid_ids_in_box.getD j 0) 0 = grid.getD j 0) ∧
        (∀ p, p < bb.coords.length → p ∉ cg.grid_ids_in_box →
          out.getD p 0 = 0)) ∧
    ((st.grid_shape = some .cubic ∨ st.grid_shape = some .bounding_box) →
      st.convert_to_boxed_grid C grid = .ok (grid, st)) := by
  constructor
  · intro hshape
    have hred : st.convert_to_boxed_grid C grid =
        .ok (scatterAssign (List.replicate bb.coords.length 0)
          cg.grid_ids_in_box grid, st) := by
      rcases hshape with h | h <;>
        simp [ReceptorState.convert_to_boxed_grid, h, hcg,
          GenState.boundingBoxGridP, hbb]
    refine ⟨_, hred, ?_, ?_, ?_⟩
    · rw [scatterAssign_length, List.length_replicate]
    · intro j hj
      have hnodup : cg.grid_ids_in_box.Nodup := hids_inc.imp Nat.ne_of_lt
      have hvj : j < grid.length := by omega
      have := scatterAssign_getD_at (List.replicate bb.coords.length 0)
        cg.grid_ids_in_box grid j hnodup
        (fun i hi => by rw [List.length_replicate]; exact hids_lt i hi) hj hvj
      exact this
    · intro p hp hpnot
      rw [scatterAssign_getD_not_mem _ _ _ _ hpnot]
      simp [List.getD_eq_getElem?_getD, List.getElem?_replicate, hp]
  · intro hshape
    rcases hshape with h | h <;>
      simp [ReceptorState.convert_to_boxed_grid, h]

/-- A minimal one-point grid instance, used when a concrete
`GridShapeCtors` record is needed for witnesses and counterexamples. -/
def cgTriv : CoordGrid := ⟨[⟨0, 0, 0⟩], (1, 1, 1), ⟨0, 0, 0⟩, 1, []⟩

/-- A concrete shape-constructor record for witnesses: every shape
constructor returns the one-point grid `cgTriv`. -/
def CWtriv : GridShapeCtors where
  cube := fun _ _ _ _ _ => cgTriv
  bbox := fun _ _ _ _ _ => cgTriv
  tsphere := fun _ _ _ _ _ => cgTriv
  hull := fun _ _ _ _ _ _ => cgTriv

/-- Concrete material for the C5 witness: a two-point truncated-sphere grid
scattered into a five-point bounding box at indices 1 and 3. -/
def cgW5 : CoordGrid :=
  ⟨[⟨0, 0, 0⟩, ⟨1, 0, 0⟩], (1, 1, 2), ⟨0, 0, 0⟩, 1, [1, 3]⟩

def bbW5 : CoordGrid :=
  ⟨[⟨0, 0, 0⟩, ⟨1, 0, 0⟩, ⟨2, 0, 0⟩, ⟨3, 0, 0⟩, ⟨4, 0, 0⟩], (1, 1, 5), ⟨0, 0, 0⟩, 1, []⟩

def stC5 : ReceptorState :=
  { ReceptorState.init 1 0 false 2 40 20 2 1 false with
    toGenState :=
      { GenState.init 1 0 false with
        grid_shape := some .truncated_sphere
        coord_grid := some cgW5
        bounding_box_grid_c := some bbW5 } }

/-- Witness for C5, at a grid of values `[10, 20]` over the two shape
points. -/
theorem C5_convert_to_boxed_grid_witness :
    ∃ out, stC5.convert_to_boxed_grid CWtriv [10, 20] = .ok (out, stC5) ∧
      out.length = bbW5.coords.length ∧
      (∀ j, j < cgW5.grid_ids_in_box.length →
        out.getD (cgW5.grid_ids_in_box.getD j 0) 0 = ([10, 20] : GridB).getD j 0) ∧
      (∀ p, p < bbW5.coords.length → p ∉ cgW5.grid_ids_in_box →
        out.getD p 0 = 0) :=
  (C5_convert_to_boxed_grid CWtriv stC5 cgW5 bbW5 [10, 20] rfl rfl rfl rfl
    (by simp [cgW5]) (by intro i hi; simp [cgW5, bbW5] at hi ⊢; omega)).1
    (Or.inl rfl)

/-- Claim C3: after `PocketGridGenerator.genernate_grids()`, every repulsive
grid point on any of the six boundary faces of the `(nx, ny, nz)` box equals
exactly 100 times the maximum the repulsive channel had before the guard,
every interior point keeps its kernel-computed value, and the electrostatic
and attractive channels are stored exactly as the kernel produced them. -/
theorem C3_pocket_edge_guard (K : Kernel) (st : PocketState)
    (cg : CoordGrid) (cs : List Point3) (ch eps vr : List ℚ)
    (eG aG rG : GridB) (nx ny nz i j kk : Nat)
    (hcg : st.coord_grid = some cg)
    (hcs : st.coords = some cs) (hch : st.charges = some ch)
    (heps : st.epsilons = some eps) (hvr : st.vdw_rs = some vr)
    (hdims : cg.points_per_dim = (nx, ny, nz))
    (hker : K.generate_grids cg.coords cs ch eps vr CC_ELEC st.rad_dielec_const
      st.elec_rep_max st.elec_attr_max st.vdw_rep_max st.vdw_attr_max
      st.use_cdie = (eG, aG, rG))
    (hlen : rG.length = nx * ny * nz)
    (hi : i < nx) (hj : j < ny) (hkk : kk < nz) :
    ∃ st', st.genernate_grids K = .ok st' ∧
      st'.elec_grid = some eG ∧
      st'.vdw_grid_attr = some aG ∧
      st'.vdw_grid_rep = some (applyEdgeGuard nx ny nz rG) ∧
      st'.potential_grids = some ⟨(nx, ny, nz), eG, aG, applyEdgeGuard nx ny nz rG⟩ ∧
      ((i = 0 ∨ i = nx - 1 ∨ j = 0 ∨ j = ny - 1 ∨ kk = 0 ∨ kk = nz - 1) →
        (applyEdgeGuard nx ny nz rG).getD (rank3 ny nz i j kk) 0 =
          listMax rG * 100) ∧
      (¬(i = 0 ∨ i = nx - 1 ∨ j = 0 ∨ j = ny - 1 ∨ kk = 0 ∨ kk = nz - 1) →
        (applyEdgeGuard nx ny nz rG).getD (rank3 ny nz i j kk) 0 =
          rG.getD (rank3 ny nz i j kk) 0) := by
  have hmain := applyEdgeGuard_getD rG hi hj hkk hlen
  have hred : st.genernate_grids K = .ok
      { st with elec_grid := some eG, vdw_grid_attr := some aG,
                vdw_grid_rep := some (applyEdgeGuard nx ny nz rG),
                potential_grids :=
                  some ⟨(nx, ny, nz), eG, aG, applyEdgeGuard nx ny nz rG⟩ } := by
    simp only [PocketState.genernate_grids, hcg, hcs, hch, heps, hvr, hker, hdims]
  refine ⟨_, hred, rfl, rfl, rfl, rfl, ?_, ?_⟩
  · intro hb
    rw [hmain, if_pos hb]
  · intro hb
    rw [hmain, if_neg hb]

/-- Concrete material for the C3 witness: a kernel whose repulsive channel
over a 3×3×3 box is the 27 values `0, 1, ..., 26` (maximum 26). -/
def c3_rep : GridB := (List.range 27).map (fun n => (n : ℚ))

def c3_kernel : Kernel where
  pairwise_dist := fun _ _ => []
  generate_grids := fun _ _ _ _ _ _ _ _ _ _ _ _ => ([1], [2], c3_rep)
  calc_vdw_energy_factors := fun es vs => (es, vs)
  rotate_gen_lig_grids := fun _ _ _ _ _ _ => ([], [], [], [])

def stC3 : PocketState :=
  { PocketState.init 1 false 2 40 20 2 1 false with
    coord_grid := some ⟨[⟨0, 0, 0⟩], (3, 3, 3), ⟨0, 0, 0⟩, 1, []⟩
    coords := some [⟨0, 0, 0⟩]
    charges := some [1]
    epsilons := some [1]
    vdw_rs := some [1] }

/-- Witness for C3 on the 3×3×3 pocket: the guard leaves the interior point
`(1,1,1)` at its kernel value and sets the face point `(0,1,1)` to
`max × 100`. -/
theorem C3_pocket_edge_guard_witness :
    ∃ st', stC3.genernate_grids c3_kernel = .ok st' ∧
      st'.elec_grid = some [1] ∧
      st'.vdw_grid_attr = some [2] ∧
      st'.vdw_grid_rep = some (applyEdgeGuard 3 3 3 c3_rep) ∧
      (applyEdgeGuard 3 3 3 c3_rep).getD (rank3 3 3 1 1 1) 0 =
        c3_rep.getD (rank3 3 3 1 1 1) 0 ∧
      (applyEdgeGuard 3 3 3 c3_rep).getD (rank3 3 3 0 1 1) 0 =
        listMax c3_rep * 100 := by
  obtain ⟨st', h1, h2, h3, h4, h5, hb, hint⟩ :=
    C3_pocket_edge_guard c3_kernel stC3 _ _ _ _ _ [1] [2] c3_rep 3 3 3 1 1 1
      rfl rfl rfl rfl rfl rfl rfl
      (by decide) (by omega) (by omega) (by omega)
  obtain ⟨st2, g1, g2, g3, g4, g5, gb, gint⟩ :=
    C3_pocket_edge_guard c3_kernel stC3 _ _ _ _ _ [1] [2] c3_rep 3 3 3 0 1 1
      rfl rfl rfl rfl rfl rfl rfl
      (by decide) (by omega) (by omega) (by omega)
  exact ⟨st', h1, h2, h3, h4, hint (by decide), gb (by decide)⟩

/-- An observing kernel instance for the forwarding claims: its
`generate_grids` echoes the six configuration arguments it receives
(dielectric constant, the four clamps, the dielectric-model flag) back as
the electrostatic channel, making "what the kernel was passed" a value of
the model. -/
def recorderKernel : Kernel where
  pairwise_dist := fun _ _ => []
  generate_grids := fun _ _ _ _ _ _ dc erm eam vrm vam cdie =>
    ([dc, erm, eam, vrm, vam, if cdie then 1 else 0], [0], [0])
  calc_vdw_energy_factors := fun es vs => (es, vs)
  rotate_gen_lig_grids := fun _ _ _ _ _ _ => ([], [], [], [])

def pocketC4 : PocketState :=
  { PocketState.init 1 false 2 40 20 2 1 false with
    coord_grid := some cgTriv
    coords := some [⟨0, 0, 0⟩]
    charges := some [0]
    epsilons := some [0]
    vdw_rs := some [0] }

/-- Counterexample to claim C4 as stated: the caller passes
`elec_attr_max = 20` and `vdw_attr_max = 1` to the `PocketGridGenerator`
constructor, and the kernel's `generate_grids` receives `-20` and `-1`
(observed through `recorderKernel`) — not the caller's values verbatim. -/
theorem C4_counterexample :
    ∃ st', pocketC4.genernate_grids recorderKernel = .ok st' ∧
      st'.elec_grid = some [2, 40, -20, 2, -1, 0] ∧
      ([2, 40, -20, 2, -1, 0] : GridB) ≠ [2, 40, 20, 2, 1, 0] := by
  refine ⟨_, rfl, ?_, by norm_num⟩
  show some [pocketC4.rad_dielec_const, pocketC4.elec_rep_max,
    pocketC4.elec_attr_max, pocketC4.vdw_rep_max, pocketC4.vdw_attr_max,
    if pocketC4.use_cdie then 1 else 0] = some [2, 40, -20, 2, -1, 0]
  norm_num [pocketC4, PocketState.init]

/-- Claim C4 (amended): the two constructors store the dielectric-model flag
verbatim, the dielectric constant and the two repulsive maxima as the
absolute values of the caller's numbers, and the two attractive maxima as
the negated absolute values; the *stored* six values are then forwarded
unmodified to the native kernel's `generate_grids` call (observed through
`recorderKernel`). -/
theorem C4_clamps_sign_normalized (sp pad : ℚ) (fft : Bool)
    (rdc erm eam vrm vam : ℚ) (cdie : Bool) :
    ((PocketState.init sp fft rdc erm eam vrm vam cdie).rad_dielec_const = |rdc| ∧
     (PocketState.init sp fft rdc erm eam vrm vam cdie).elec_rep_max = |erm| ∧
     (PocketState.init sp fft rdc erm eam vrm vam cdie).elec_attr_max = -|eam| ∧
     (PocketState.init sp fft rdc erm eam vrm vam cdie).vdw_rep_max = |vrm| ∧
     (PocketState.init sp fft rdc erm eam vrm vam cdie).vdw_attr_max = -|vam| ∧
     (PocketState.init sp fft rdc erm eam vrm vam cdie).use_cdie = cdie) ∧
    ((ReceptorState.init sp pad fft rdc erm eam vrm vam cdie).rad_dielec_const = |rdc| ∧
     (ReceptorState.init sp pad fft rdc erm eam vrm vam cdie).elec_rep_max = |erm| ∧
     (ReceptorState.init sp pad fft rdc erm eam vrm vam cdie).elec_attr_max = -|eam| ∧
     (ReceptorState.init sp pad fft rdc erm eam vrm vam cdie).vdw_rep_max = |vrm| ∧
     (ReceptorState.init sp pad fft rdc erm eam vrm vam cdie).vdw_attr_max = -|vam| ∧
     (ReceptorState.init sp pad fft rdc erm eam vrm vam cdie).use_cdie = cdie) ∧
    (∀ st : PocketState,
      st.coord_grid.isSome → st.coords.isSome → st.charges.isSome →
      st.epsilons.isSome → st.vdw_rs.isSome →
      (st.genernate_grids recorderKernel).isOk ∧
      ∀ st', st.genernate_grids recorderKernel = .ok st' →
        st'.elec_grid = some [st.rad_dielec_const, st.elec_rep_max,
          st.elec_attr_max, st.vdw_rep_max, st.vdw_attr_max,
          if st.use_cdie then 1 else 0]) ∧
    (∀ st : ReceptorState, ∀ C : GridShapeCtors,
      st.grid_shape = some .cubic →
      st.coord_grid.isSome → st.coords.isSome → st.charges.isSome →
      st.epsilons.isSome → st.vdw_rs.isSome →
      (st.genernate_grids recorderKernel C).isOk ∧
      ∀ st', st.genernate_grids recorderKernel C = .ok st' →
        st'.elec_grid = some [st.rad_dielec_const, st.elec_rep_max,
          st.elec_attr_max, st.vdw_rep_max, st.vdw_attr_max,
          if st.use_cdie then 1 else 0]) := by
  refine ⟨⟨rfl, rfl, rfl, rfl, rfl, rfl⟩, ⟨rfl, rfl, rfl, rfl, rfl, rfl⟩, ?_, ?_⟩
  · intro st h1 h2 h3 h4 h5
    obtain ⟨cg, hcg⟩ := Option.isSome_iff_exists.mp h1
    obtain ⟨cs, hcs⟩ := Option.isSome_iff_exists.mp h2
    obtain ⟨ch, hch⟩ := Option.isSome_iff_exists.mp h3
    obtain ⟨eps, heps⟩ := Option.isSome_iff_exists.mp h4
    obtain ⟨vr, hvr⟩ := Option.isSome_iff_exists.mp h5
    constructor
    · simp [PocketState.genernate_grids, hcg, hcs, hch, heps, hvr, Except.isOk, Except.toBool]
    · intro st' hst'
      simp only [PocketState.genernate_grids, hcg, hcs, hch, heps, hvr] at hst'
      injection hst' with h
      subst h
      rfl
  · intro st C hsh h1 h2 h3 h4 h5
    obtain ⟨cg, hcg⟩ := Option.isSome_iff_exists.mp h1
    obtain ⟨cs, hcs⟩ := Option.isSome_iff_exists.mp h2
    obtain ⟨ch, hch⟩ := Option.isSome_iff_exists.mp h3
    obtain ⟨eps, heps⟩ := Option.isSome_iff_exists.mp h4
    obtain ⟨vr, hvr⟩ := Option.isSome_iff_exists.mp h5
    constructor
    · simp [ReceptorState.genernate_grids, hcg, hcs, hch, heps, hvr,
        ReceptorState.convert_to_boxed_grid, hsh, Except.isOk, Except.toBool]
    · intro st' hst'
      simp only [ReceptorState.genernate_grids, hcg, hcs, hch, heps, hvr,
        ReceptorState.convert_to_boxed_grid, hsh] at hst'
      injection hst' with h
      subst h
      rfl

def receptorC4 : ReceptorState :=
  { ReceptorState.init 1 0 false 2 40 20 2 1 false with
    toGenState :=
      { GenState.init 1 0 false with
        coord_grid := some cgTriv
        coords := some [⟨0, 0, 0⟩]
        charges := some [0]
        epsilons := some [0]
        vdw_rs := some [0]
        grid_shape := some .cubic } }

/-- Witness for the amended C4, at caller values `(-2, -40, 20, 2, 1, true)`
and the concrete loaded pocket/receptor states. -/
theorem C4_clamps_sign_normalized_witness :
    ((PocketState.init 1 false (-2) (-40) 20 2 1 true).elec_attr_max = -|(20 : ℚ)|) ∧
    ((ReceptorState.init 1 0 false (-2) (-40) 20 2 1 true).elec_rep_max = |(-40 : ℚ)|) ∧
    ((pocketC4.genernate_grids recorderKernel).isOk ∧
      ∀ st', pocketC4.genernate_grids recorderKernel = .ok st' →
        st'.elec_grid = some [pocketC4.rad_dielec_const, pocketC4.elec_rep_max,
          pocketC4.elec_attr_max, pocketC4.vdw_rep_max, pocketC4.vdw_attr_max,
          if pocketC4.use_cdie then 1 else 0]) ∧
    ((receptorC4.genernate_grids recorderKernel CWtriv).isOk ∧
      ∀ st', receptorC4.genernate_grids recorderKernel CWtriv = .ok st' →
        st'.elec_grid = some [receptorC4.rad_dielec_const, receptorC4.elec_rep_max,
          receptorC4.elec_attr_max, receptorC4.vdw_rep_max, receptorC4.vdw_attr_max,
          if receptorC4.use_cdie then 1 else 0]) :=
  ⟨(C4_clamps_sign_normalized 1 0 false (-2) (-40) 20 2 1 true).1.2.2.1,
   (C4_clamps_sign_normalized 1 0 false (-2) (-40) 20 2 1 true).2.1.2.1,
   (C4_clamps_sign_normalized 1 0 false 2 40 20 2 1 false).2.2.1
     pocketC4 rfl rfl rfl rfl rfl,
   (C4_clamps_sign_normalized 1 0 false 2 40 20 2 1 false).2.2.2
     receptorC4 CWtriv rfl rfl rfl rfl rfl rfl⟩

theorem pocket_collect_params_ne_config (st : PocketState) (e : Err)
    (h : (st.collect_params).1 = some e) : e ≠ .configurationError := by
  cases he : st.entity with
  | none =>
    simp [PocketState.collect_params, he] at h
    subst h
    decide
  | some ent =>
    cases hc : collectParamsCore st.nonbonded_dict ent.atoms with
    | error err =>
      simp [PocketState.collect_params, he, hc] at h
      subst h
      exact collectParamsCore_never_configurationError _ _ _ hc
    | ok t =>
      obtain ⟨cs, vs, es⟩ := t
      simp [PocketState.collect_params, he, hc] at h

theorem pocket_collect_params_coord_center (st : PocketState) :
    ((st.collect_params).2).coord_center = st.coord_center := by
  cases he : st.entity with
  | none => simp [PocketState.collect_params, he]
  | some ent =>
    cases hc : collectParamsCore st.nonbonded_dict ent.atoms with
    | error err => simp [PocketState.collect_params, he, hc]
    | ok t =>
      obtain ⟨cs, vs, es⟩ := t
      simp [PocketState.collect_params, he, hc]

/-- The three center-handling facts about the tail of `load_receptor` once a
center `c` is chosen: it never raises the missing-center configuration
error, a successful load records exactly `c` as the grid center, and it
succeeds whenever every receptor atom resolves in the parameter table. -/
theorem loadReceptorWithCenter_spec (C : GridShapeCtors) (st : PocketState)
    (r : Entity) (bd : BoxDims) (c : Point3) :
    (st.loadReceptorWithCenter C r bd c ≠ .error .configurationError) ∧
    (∀ st', st.loadReceptorWithCenter C r bd c = .ok st' →
      st'.coord_center = some c) ∧
    ((∀ a ∈ r.atoms, (atomParamRowOf r.nbList a).isSome) →
      (st.loadReceptorWithCenter C r bd c).isOk) := by
  simp only [PocketState.loadReceptorWithCenter]
  generalize hst1 : ({ st with
    coord_center := some c
    entity := some r
    nonbonded_dict := r.nbList
    max_dims := some bd.resolve
    coord_grid := some (C.bbox bd.resolve c st.spacing st.paddings st.optimize_for_fft)
    coords := some (entityCoords r) } : PocketState) = st1
  have hcc : st1.coord_center = some c := by rw [← hst1]
  have hent : st1.entity = some r := by rw [← hst1]
  have hnb : st1.nonbonded_dict = r.nbList := by rw [← hst1]
  cases hcp : st1.collect_params with
  | mk fst snd =>
    cases fst with
    | some e =>
      refine ⟨?_, ?_, ?_⟩
      · intro h
        injection h with h'
        exact pocket_collect_params_ne_config st1 e (by rw [hcp]) h'
      · intro st' h
        cases h
      · intro hres
        have hok := collectParamsCore_ok_of_resolvable r.nbList r.atoms hres
        have hnone : (st1.collect_params).1 = none := by
          simp [PocketState.collect_params, hent, hnb, hok]
        rw [hcp] at hnone
        cases hnone
    | none =>
      refine ⟨?_, ?_, ?_⟩
      · intro h
        cases h
      · intro st' h
        injection h with h'
        subst h'
        have := pocket_collect_params_coord_center st1
        rw [hcp] at this
        simpa [hcc] using this.symm ▸ hcc
      · intro _
        rfl

/-- Claim C7 (amended): `load_receptor` raises the missing-center
`ConfigurationError` exactly when *neither* `pocket_center` nor `ref_ligand`
is supplied (supplying both does not fail — `pocket_center` wins, see C10);
and when only `ref_ligand` is supplied, a successful load records the mean
of the reference ligand's coordinates as the grid center. -/
theorem C7_load_receptor_center_check (C : GridShapeCtors) (st : PocketState)
    (r : Entity) (bd : BoxDims) (pc : Option Point3) (lig : Option Entity) :
    (st.load_receptor C r bd pc lig = .error .configurationError ↔
      pc = none ∧ lig = none) ∧
    (∀ L st', pc = none → lig = some L →
      st.load_receptor C r bd pc lig = .ok st' →
      st'.coord_center = some (centroidMean (entityCoords L))) := by
  constructor
  · constructor
    · intro h
      cases pc with
      | some c => exact absurd h (loadReceptorWithCenter_spec C st r bd c).1
      | none =>
        cases lig with
        | some L => exact absurd h (loadReceptorWithCenter_spec C st r bd _).1
        | none => exact ⟨rfl, rfl⟩
    · rintro ⟨hpc, hlig⟩
      subst hpc
      subst hlig
      rfl
  · intro L st' hpc hlig hok
    subst hpc
    subst hlig
    exact (loadReceptorWithCenter_spec C st r bd _).2.1 st' hok

/-- A minimal well-parameterized one-atom entity, shared by several
witnesses. -/
def entW : Entity := ⟨[⟨⟨0, 0, 0⟩, some ⟨"A", 0⟩⟩], [("A", ⟨0, 0⟩)]⟩

theorem entW_resolvable : ∀ a ∈ entW.atoms, (atomParamRowOf entW.nbList a).isSome := by
  intro a ha
  rw [show entW.atoms = [⟨⟨0, 0, 0⟩, some ⟨"A", 0⟩⟩] from rfl, List.mem_singleton] at ha
  subst ha
  simp [atomParamRowOf, entW, nbLookup]

def stP0 : PocketState := PocketState.init 1 false 2 40 20 2 1 false

/-- Counterexample to claim C7 as stated: supplying *both* `pocket_center`
and `ref_ligand` does not fail — the load succeeds. -/
theorem C7_both_supplied_succeeds :
    (stP0.load_receptor CWtriv entW (BoxDims.scalar 1)
      (some ⟨0, 0, 0⟩) (some entW)).isOk :=
  (loadReceptorWithCenter_spec CWtriv stP0 entW (BoxDims.scalar 1) ⟨0, 0, 0⟩).2.2
    entW_resolvable

/-- Witness for the amended C7: with neither center argument the load
raises `ConfigurationError`; with only `ref_ligand` it loads and records the
ligand centroid as the center. -/
theorem C7_load_receptor_center_check_witness :
    stP0.load_receptor CWtriv entW (BoxDims.scalar 1) none none =
      .error .configurationError ∧
    ∃ st', stP0.load_receptor CWtriv entW (BoxDims.scalar 1) none (some entW) =
      .ok st' ∧ st'.coord_center = some (centroidMean (entityCoords entW)) := by
  constructor
  · exact (C7_load_receptor_center_check CWtriv stP0 entW (BoxDims.scalar 1)
      none none).1.mpr ⟨rfl, rfl⟩
  · cases hrun : stP0.load_receptor CWtriv entW (BoxDims.scalar 1) none (some entW) with
    | error e =>
      exfalso
      have hok := (loadReceptorWithCenter_spec CWtriv stP0 entW (BoxDims.scalar 1)
        (centroidMean (entityCoords entW))).2.2 entW_resolvable
      rw [show stP0.loadReceptorWithCenter CWtriv entW (BoxDims.scalar 1)
        (centroidMean (entityCoords entW)) =
        stP0.load_receptor CWtriv entW (BoxDims.scalar 1) none (some entW) from rfl,
        hrun] at hok
      cases hok
    | ok st' =>
      exact ⟨st', rfl, (C7_load_receptor_center_check CWtriv stP0 entW
        (BoxDims.scalar 1) none (some entW)).2 entW st' rfl rfl hrun⟩

/-- Claim C10: with both arguments supplied the call is oblivious to
`ref_ligand` (the result is literally independent of it — its coordinates
are never read), `pocket_center` is the recorded grid center of any
successful load, the missing-center error cannot occur, and the call
succeeds whenever the receptor's atoms resolve in the parameter table. -/
theorem C10_pocket_center_precedence (C : GridShapeCtors) (st : PocketState)
    (r : Entity) (bd : BoxDims) (c : Point3) (lig lig' : Option Entity) :
    st.load_receptor C r bd (some c) lig = st.load_receptor C r bd (some c) lig' ∧
    (∀ st', st.load_receptor C r bd (some c) lig = .ok st' →
      st'.coord_center = some c) ∧
    st.load_receptor C r bd (some c) lig ≠ .error .configurationError ∧
    ((∀ a ∈ r.atoms, (atomParamRowOf r.nbList a).isSome) →
      (st.load_receptor C r bd (some c) lig).isOk) :=
  ⟨rfl, (loadReceptorWithCenter_spec C st r bd c).2.1,
   (loadReceptorWithCenter_spec C st r bd c).1,
   (loadReceptorWithCenter_spec C st r bd c).2.2⟩

/-- Witness for C10 at a concrete receptor, box and center: `ref_ligand`
supplied or not gives the identical result, which succeeds with center
`(1, 2, 3)`. -/
theorem C10_pocket_center_precedence_witness :
    stP0.load_receptor CWtriv entW (BoxDims.scalar 2) (some ⟨1, 2, 3⟩) (some entW) =
      stP0.load_receptor CWtriv entW (BoxDims.scalar 2) (some ⟨1, 2, 3⟩) none ∧
    (stP0.load_receptor CWtriv entW (BoxDims.scalar 2) (some ⟨1, 2, 3⟩) (some entW)).isOk ∧
    ∃ st', stP0.load_receptor CWtriv entW (BoxDims.scalar 2) (some ⟨1, 2, 3⟩) (some entW) =
      .ok st' ∧ st'.coord_center = some ⟨1, 2, 3⟩ := by
  have hthm := C10_pocket_center_precedence CWtriv stP0 entW (BoxDims.scalar 2)
    ⟨1, 2, 3⟩ (some entW) none
  refine ⟨hthm.1, hthm.2.2.2 entW_resolvable, ?_⟩
  cases hrun : stP0.load_receptor CWtriv entW (BoxDims.scalar 2)
      (some ⟨1, 2, 3⟩) (some entW) with
  | error e =>
    exfalso
    have hok := hthm.2.2.2 entW_resolvable
    rw [hrun] at hok
    cases hok
  | ok st' => exact ⟨st', rfl, hthm.2.1 st' hrun⟩

/-- `generate_grids` never touches the stored vdW energy factors: they are
read (source line 728) but only the grid/rotation fields are assigned. -/
theorem probe_generate_grids_preserves_factors (K : Kernel) (st : ProbeState)
    (q : Option (List Quat)) (st'' : ProbeState)
    (h : st.generate_grids K q = .ok st'') :
    st''.vdw_attr_factor = st.vdw_attr_factor ∧
    st''.vdw_rep_factor = st.vdw_rep_factor := by
  cases heps : st.epsilons <;> cases hcs : st.coords <;> cases hch : st.charges <;>
      cases haf : st.vdw_attr_factor <;> cases hrf : st.vdw_rep_factor <;>
      simp only [ProbeState.generate_grids, heps, hcs, hch, haf, hrf,
        Except.ok.injEq] at h <;>
      first
        | simp at h
        | (subst h; exact ⟨rfl, rfl⟩)

/-- Claim C6 (amended): `load_probe` re-centers the stored coordinates by
subtracting `coord_center` — the per-axis midpoint of the maximum and
minimum coordinates (`(max + min) / 2`), *not* the arithmetic mean — so
that after loading, `coord_center` of the stored coordinates is the origin;
it forces the active shape to the cube variant; and the vdW attractive and
repulsive energy factors are computed exactly once at load time via
`calc_vdw_energy_factors` and never reassigned by `generate_grids`
(`generate_grids_single_pose` is stateless and cannot reassign them). -/
theorem C6_load_probe_centering (K : Kernel) (st : ProbeState) (probe : Entity)
    (hne : probe.atoms ≠ [])
    (hres : ∀ a ∈ probe.atoms, (atomParamRowOf probe.nbList a).isSome) :
    ∃ st', st.load_probe K probe = .ok st' ∧
      st'.original_center = some (coordCenterOf (entityCoords probe)) ∧
      st'.coords = some ((entityCoords probe).map
        (fun p => p.sub (coordCenterOf (entityCoords probe)))) ∧
      (∀ cs', st'.coords = some cs' → coordCenterOf cs' = ⟨0, 0, 0⟩) ∧
      st'.grid_shape = some .cubic ∧
      (∃ eps vr, st'.epsilons = some eps ∧ st'.vdw_rs = some vr ∧
        st'.vdw_attr_factor = some (K.calc_vdw_energy_factors eps vr).1 ∧
        st'.vdw_rep_factor = some (K.calc_vdw_energy_factors eps vr).2) ∧
      (∀ q st'', st'.generate_grids K q = .ok st'' →
        st''.vdw_attr_factor = st'.vdw_attr_factor ∧
        st''.vdw_rep_factor = st'.vdw_rep_factor) := by
  have hcne : entityCoords probe ≠ [] := by
    intro hc
    exact hne (by simpa [entityCoords] using hc)
  have hie : (entityCoords probe).isEmpty = false := by
    cases hc : entityCoords probe with
    | nil => exact absurd hc hcne
    | cons a t => rfl
  have hok := collectParamsCore_ok_of_resolvable probe.nbList probe.atoms hres
  cases hrun : st.load_probe K probe with
  | error e =>
    exfalso
    simp only [ProbeState.load_probe, GenState.load_entity, hie,
      GenState.collect_params, hok, Bool.false_eq_true, if_false] at hrun
    exact Except.noConfusion hrun
  | ok st' =>
    have hrun' := hrun
    simp only [ProbeState.load_probe, GenState.load_entity, hie,
      GenState.collect_params, hok, Bool.false_eq_true, if_false,
      Except.ok.injEq] at hrun'
    refine ⟨st', rfl, ?_⟩
    rw [← hrun']
    refine ⟨rfl, rfl, ?_, rfl, ⟨_, _, rfl, rfl, rfl, rfl⟩, ?_⟩
    · intro cs' hcs'
      injection hcs' with h'
      rw [← h']
      exact coordCenterOf_centered _ hcne
    · intro q st'' hgen
      exact probe_generate_grids_preserves_factors K _ q st'' hgen

/-- A three-atom probe lying on the x axis at 0, 2, 10: its `coord_center`
midpoint is `(5, 0, 0)` while its coordinate mean is `(4, 0, 0)`, so the
two notions of center differ. -/
def c6_probe : Entity :=
  ⟨[⟨⟨0, 0, 0⟩, some ⟨"A", 0⟩⟩, ⟨⟨2, 0, 0⟩, some ⟨"A", 0⟩⟩,
    ⟨⟨10, 0, 0⟩, some ⟨"A", 0⟩⟩],
   [("A", ⟨0, 0⟩)]⟩

theorem c6_probe_resolvable :
    ∀ a ∈ c6_probe.atoms, (atomParamRowOf c6_probe.nbList a).isSome := by
  intro a ha
  simp only [c6_probe, List.mem_cons, List.not_mem_nil, or_false] at ha
  rcases ha with h | h | h <;> subst h <;> simp [atomParamRowOf, nbLookup]

/-- Counterexample to claim C6 as stated: after `load_probe` of `c6_probe`,
the mean (centroid) of the stored coordinates is `(-1, 0, 0)`, not the
origin — the code re-centers at the max/min midpoint, not at the mean. -/
theorem C6_centroid_counterexample :
    ∃ st', (ProbeState.init 1 rot_search_level_0).load_probe c3_kernel c6_probe =
      .ok st' ∧
      (∀ cs', st'.coords = some cs' → centroidMean cs' = ⟨-1, 0, 0⟩) ∧
      (⟨-1, 0, 0⟩ : Point3) ≠ ⟨0, 0, 0⟩ := by
  cases hrun : (ProbeState.init 1 rot_search_level_0).load_probe c3_kernel c6_probe with
  | error e =>
    exfalso
    simp [ProbeState.load_probe, GenState.load_entity, GenState.collect_params,
      collectParamsCore, c6_probe, entityCoords, nbLookup] at hrun
  | ok st' =>
    have hrun' := hrun
    simp only [ProbeState.load_probe, GenState.load_entity,
      GenState.collect_params, collectParamsCore, c6_probe, entityCoords,
      nbLookup, List.map_cons, List.map_nil, List.isEmpty_cons,
      Bool.false_eq_true, if_false, Except.ok.injEq, reduceIte] at hrun'
    refine ⟨st', rfl, ?_, ?_⟩
    · intro cs' hcs'
      rw [← hrun'] at hcs'
      injection hcs' with h'
      rw [← h']
      norm_num [coordCenterOf, listMax, listMin, Point3.sub, centroidMean,
        listMean, max_def, min_def]
    · intro h
      have := congrArg Point3.x h
      norm_num at this

/-- Witness for the amended C6 at the concrete probe `c6_probe`. -/
theorem C6_load_probe_centering_witness :
    ∃ st', (ProbeState.init 1 rot_search_level_0).load_probe c3_kernel c6_probe =
      .ok st' ∧
      st'.original_center = some (coordCenterOf (entityCoords c6_probe)) ∧
      st'.coords = some ((entityCoords c6_probe).map
        (fun p => p.sub (coordCenterOf (entityCoords c6_probe)))) ∧
      (∀ cs', st'.coords = some cs' → coordCenterOf cs' = ⟨0, 0, 0⟩) ∧
      st'.grid_shape = some .cubic ∧
      (∃ eps vr, st'.epsilons = some eps ∧ st'.vdw_rs = some vr ∧
        st'.vdw_attr_factor = some (c3_kernel.calc_vdw_energy_factors eps vr).1 ∧
        st'.vdw_rep_factor = some (c3_kernel.calc_vdw_energy_factors eps vr).2) ∧
      (∀ q st'', st'.generate_grids c3_kernel q = .ok st'' →
        st''.vdw_attr_factor = st'.vdw_attr_factor ∧
        st''.vdw_rep_factor = st'.vdw_rep_factor) :=
  C6_load_probe_centering c3_kernel (ProbeState.init 1 rot_search_level_0)
    c6_probe (by simp [c6_probe]) c6_probe_resolvable

/-- Claim C9: with the level-0 rotation set (the identity quaternion only),
`generate_grids()` produces exactly one orientation's grid triple, and its
three channels are value-identical to the channels of
`generate_grids_single_pose` called with the probe's own centered, unrotated
stored coordinates — both paths make the same kernel call, whose
one-grid-per-quaternion output is the hypothesis `hker`. -/
theorem C9_level0_matches_single_pose (K : Kernel) (st : ProbeState)
    (cs : List Point3) (ch af rf eps : List ℚ)
    (rc : List (List Point3)) (e a r : GridB)
    (hq : st.quats = rot_search_level_0)
    (heps : st.epsilons = some eps)
    (hcs : st.coords = some cs) (hch : st.charges = some ch)
    (haf : st.vdw_attr_factor = some af) (hrf : st.vdw_rep_factor = some rf)
    (hker : K.rotate_gen_lig_grids st.spacing ch af rf cs rot_search_level_0 =
      (rc, [e], [a], [r])) :
    (∃ st', st.generate_grids K none = .ok st' ∧
      st'.param_grids = some [(e, a, r)]) ∧
    st.generate_grids_single_pose K cs = .ok ([e], [a], [r]) := by
  constructor
  · cases hrun : st.generate_grids K none with
    | error e' =>
      exfalso
      simp only [ProbeState.generate_grids, heps, hcs, hch, haf, hrf, hq,
        hker] at hrun
      exact Except.noConfusion hrun
    | ok st' =>
      have hrun' := hrun
      simp only [ProbeState.generate_grids, heps, hcs, hch, haf, hrf, hq,
        hker, Except.ok.injEq] at hrun'
      refine ⟨st', rfl, ?_⟩
      rw [← hrun']
      rfl
  · simp only [ProbeState.generate_grids_single_pose, heps, hcs, hch, haf, hrf,
      ne_eq, not_true_eq_false, if_false, hker]

def c9_kernel : Kernel where
  pairwise_dist := fun _ _ => []
  generate_grids := fun _ _ _ _ _ _ _ _ _ _ _ _ => ([], [], [])
  calc_vdw_energy_factors := fun es vs => (es, vs)
  rotate_gen_lig_grids := fun _ _ _ _ cs qs =>
    (qs.map (fun _ => cs), qs.map (fun _ => [1]), qs.map (fun _ => [2]),
     qs.map (fun _ => [3]))

/-- A loaded level-0 probe state used by the C9 and C2 scenarios. -/
def c9_state : ProbeState :=
  { ProbeState.init 1 rot_search_level_0 with
    coords := some [⟨0, 0, 0⟩]
    charges := some [1]
    epsilons := some [1]
    vdw_rs := some [2]
    vdw_attr_factor := some [4]
    vdw_rep_factor := some [5] }

/-- Witness for C9 at a one-atom probe and a kernel marking the three
channels with 1, 2, 3. -/
theorem C9_level0_matches_single_pose_witness :
    (∃ st', c9_state.generate_grids c9_kernel none = .ok st' ∧
      st'.param_grids = some [([1], [2], [3])]) ∧
    c9_state.generate_grids_single_pose c9_kernel [⟨0, 0, 0⟩] =
      .ok ([[1]], [[2]], [[3]]) :=
  C9_level0_matches_single_pose c9_kernel c9_state [⟨0, 0, 0⟩] [1] [4] [5] [1]
    [[⟨0, 0, 0⟩]] [1] [2] [3] rfl rfl rfl rfl rfl rfl rfl

/-- A kernel marking each produced orientation with the quaternion it was
given (`w` in the electrostatic channel, `x`/`y` in the vdW channels), one
grid triple per quaternion. -/
def c2_kernel : Kernel where
  pairwise_dist := fun _ _ => []
  generate_grids := fun _ _ _ _ _ _ _ _ _ _ _ _ => ([], [], [])
  calc_vdw_energy_factors := fun es vs => (es, vs)
  rotate_gen_lig_grids := fun _ _ _ _ cs qs =>
    (qs.map (fun _ => cs), qs.map (fun q => [q.w]), qs.map (fun q => [q.x]),
     qs.map (fun q => [q.y]))

/-- Claim C2 is violated by the code: `generate_grids` is called with a
caller-supplied batch of two quaternions (both with `w = 0`), yet the result
has exactly one orientation and it is the preset identity quaternion's
(`w = 1` shows in the marker channel) — source line 729 passes `self.quats`
to the kernel and ignores the `quats` argument, contradicting the
function's own docstring. -/
theorem C2_supplied_quats_ignored :
    ∃ st', c9_state.generate_grids c2_kernel
        (some [⟨0, 1, 0, 0⟩, ⟨0, 0, 1, 0⟩]) = .ok st' ∧
      st'.param_grids = some [([1], [0], [0])] ∧
      (∀ pg, st'.param_grids = some pg → pg.length = 1) ∧
      (1 : Nat) ≠ 2 := by
  refine ⟨_, rfl, rfl, ?_, by decide⟩
  intro pg hpg
  injection hpg with h
  rw [← h]
  rfl

def c1_entityA : Entity := ⟨[⟨⟨0, 0, 0⟩, some ⟨"A", 1⟩⟩], [("A", ⟨1, 1⟩)]⟩

def c1_entityB : Entity := ⟨[⟨⟨0, 0, 0⟩, some ⟨"A", 2⟩⟩], [("A", ⟨1, 1⟩)]⟩

/-- A kernel whose electrostatic channel echoes the first loaded charge, so
grids computed from `c1_entityA` (charge 1) and `c1_entityB` (charge 2) are
distinguishable. -/
def c1_kernel : Kernel where
  pairwise_dist := fun _ _ => []
  generate_grids := fun _ _ ch _ _ _ _ _ _ _ _ _ => ([ch.headD 0], [0], [0])
  calc_vdw_energy_factors := fun es vs => (es, vs)
  rotate_gen_lig_grids := fun _ _ _ _ _ _ => ([], [], [], [])

/-- The C1 scenario: load entity A, read the potential grids, load entity B,
read the potential grids again, and also compute what a fresh
`genernate_grids` from the B-loaded state would produce.  Returns the three
stacks `(first read, second read, fresh recomputation)`. -/
def c1_run : Except Err (PotGrids × PotGrids × PotGrids) :=
  match (ReceptorState.init 1 0 false 2 40 20 2 1 false).load_entity
      CWtriv c1_entityA .cubic with
  | .error e => .error e
  | .ok st1 =>
    match st1.get_potential_grids c1_kernel CWtriv with
    | .error e => .error e
    | .ok (p1, st2) =>
      match st2.load_entity CWtriv c1_entityB .cubic with
      | .error e => .error e
      | .ok st3 =>
        match st3.get_potential_grids c1_kernel CWtriv with
        | .error e => .error e
        | .ok (p2, _) =>
          match ({ st3 with potential_grids := none }
              : ReceptorState).genernate_grids c1_kernel CWtriv with
          | .error e => .error e
          | .ok st5 =>
            match st5.potential_grids with
            | some pf => .ok (p1, p2, pf)
            | none => .error .stateError

/-- Claim C1 is violated by the code: after entity B is loaded, the second
`get_potential_grids` still returns the stack computed from entity A
(electrostatic channel `[1]`, entity A's charge), because
`ReceptorGridGenerator.load_entity` clears `_dists` and the three channel
grids (lines 511-515) but never resets `self.potential_grids`, which
`get_potential_grids` consults first (line 567).  A fresh recomputation from
the B-loaded state yields a different stack (`[2]`).
(`PocketGridGenerator.load_receptor`, lines 315-319, omits the same reset;
`ProbeGridGenerator.load_probe` does clear its `param_grids` cache.) -/
theorem C1_stale_potential_grids :
    c1_run = .ok (⟨(1, 1, 1), [1], [0], [0]⟩, ⟨(1, 1, 1), [1], [0], [0]⟩,
      ⟨(1, 1, 1), [2], [0], [0]⟩) ∧
    (⟨(1, 1, 1), [1], [0], [0]⟩ : PotGrids) ≠ ⟨(1, 1, 1), [2], [0], [0]⟩ := by
  constructor
  · rfl
  · intro h
    have h2 := congrArg PotGrids.elec h
    norm_num at h2
